import Mathlib

/-!
Verification of the Cannect federation synchronization subsystem.

The definitions below are a shallow embedding of the Jetstream polling edge
function found in `supabase/migrations/20251219000000_bluesky_federation.sql`
(the function `serve` together with `parseSSEEvents`, `isRelevantToCannect`,
`processEvent`, `handleLikeEvent`, `handleRepostEvent`, `handlePostEvent`,
`handleFollowEvent`, `createExternalNotification` and `getBlueskyProfile`).
Supabase query-builder calls are modelled by explicit list operations with
PostgREST semantics (`.single()` succeeds on exactly one row, `.maybeSingle()`
returns data only for exactly one row, `.delete()` of zero rows is not an
error).  Asynchronous remote calls are modelled by explicit oracles passed in
an environment.  Parts of the repository that the edge function depends on but
whose source is not in the snapshot (the `federated_interactions` DDL and the
counter RPCs, and the outbound `atproto-agent` function) are modelled from the
specification and are marked as such in their doc comments.
-/

namespace Cannect

/-- Character-list analogue of JavaScript `String.startsWith`. -/
def leadsWith : List Char → List Char → Bool
  | [], _ => true
  | _ :: _, [] => false
  | a :: as, b :: bs => a == b && leadsWith as bs

/-- Character-list analogue of JavaScript `String.includes`
(`needle` occurs somewhere in the haystack). -/
def hasSegment : List Char → List Char → Bool
  | n, [] => leadsWith n []
  | n, h :: t => leadsWith n (h :: t) || hasSegment n t

/-- JavaScript `hay.includes(needle)`. -/
def strIncludes (hay needle : String) : Bool :=
  hasSegment needle.data hay.data

/-- PostgREST `.single()` / `.maybeSingle()` data: exactly one row yields the
row, zero rows yields no data, and two or more rows is an error whose data is
likewise null. -/
def singleRow {α : Type} : List α → Option α
  | [a] => some a
  | _ => none

/-- `CANNECT_DOMAIN` from the edge function. -/
def CANNECT_DOMAIN : String := "cannect.space"

/-- `PROFILE_CACHE_TTL_MS` from the edge function (one hour). -/
def PROFILE_CACHE_TTL_MS : Nat := 3600000

/-- The record object carried by a Jetstream commit event.  The JavaScript
source accesses it by loose field lookups whose shape varies per collection;
each optional field here is one of the lookups the source performs
(`record.subject?.uri`, `record.subject` as a bare DID for follows,
`record.reply?.parent?.uri`, `record.reply?.root?.uri`,
`record.embed?.record?.uri`, `record.text`, `record.createdAt`). -/
structure RecordObj where
  subject_uri : Option String
  subject_did : Option String
  reply_parent_uri : Option String
  reply_root_uri : Option String
  embed_record_uri : Option String
  text : Option String
  createdAt : Option String
  deriving DecidableEq

/-- The commit payload of a Jetstream event
(`{operation, collection, record, rkey}`). -/
structure CommitObj where
  operation : String
  collection : String
  rkey : String
  record : Option RecordObj
  deriving DecidableEq

/-- A Jetstream event (`{did, kind, time_us, commit}`). -/
structure Event where
  did : String
  kind : String
  time_us : Option Nat
  commit : Option CommitObj
  deriving DecidableEq

/-- A row of the `posts` table, restricted to the columns the edge function
reads (`id`, `user_id`, `at_uri`) and the aggregate counters the RPCs
mutate. -/
structure Post where
  id : String
  user_id : String
  at_uri : String
  likes_count : Nat
  reposts_count : Nat
  replies_count : Nat
  quotes_count : Nat
  deriving DecidableEq

/-- A row of the `profiles` table restricted to `id`, `did` and the
followers counter. -/
structure Profile where
  id : String
  did : String
  followers_count : Nat
  deriving DecidableEq

/-- A row of the `federated_interactions` table as inserted by the edge
function. -/
structure FIRecord where
  post_id : Option String
  target_user_id : Option String
  interaction_type : String
  actor_did : String
  at_uri : String
  meta_text : Option String
  meta_createdAt : Option String
  deriving DecidableEq

/-- A row of the `notifications` table as inserted by
`createExternalNotification`. -/
structure NotificationRec where
  user_id : String
  actor_did : String
  actor_handle : String
  actor_display_name : Option String
  actor_avatar : Option String
  reason : String
  post_id : Option String
  is_external : Bool
  deriving DecidableEq

/-- A row of the `bluesky_profile_cache` table; `cached_at` is a
millisecond timestamp. -/
structure CacheRow where
  did : String
  handle : Option String
  display_name : Option String
  avatar : Option String
  cached_at : Nat
  deriving DecidableEq

/-- The JSON object returned by the Bluesky `getProfile` endpoint, restricted
to the fields the edge function reads. -/
structure BskyProfile where
  handle : Option String
  displayName : Option String
  avatar : Option String
  deriving DecidableEq

/-- The value `getBlueskyProfile` hands to its caller: either the raw cache
row (whose display-name column is `display_name`) or the freshly fetched
profile object (whose field is `displayName`).  Keeping the two apart models
the JavaScript loose field access faithfully. -/
inductive ActorObj where
  | fromCache (row : CacheRow)
  | fromApi (p : BskyProfile)
  deriving DecidableEq

/-- JavaScript `actor?.handle` over the two possible actor shapes. -/
def ActorObj.handleField : ActorObj → Option String
  | .fromCache row => row.handle
  | .fromApi p => p.handle

/-- JavaScript `actor?.displayName`.  A cache row has no `displayName` key
(its column is `display_name`), so the lookup yields `undefined` there. -/
def ActorObj.displayNameField : ActorObj → Option String
  | .fromCache _ => none
  | .fromApi p => p.displayName

/-- JavaScript `actor?.avatar` (both shapes carry an `avatar` key). -/
def ActorObj.avatarField : ActorObj → Option String
  | .fromCache row => row.avatar
  | .fromApi p => p.avatar

/-- The local relational state touched by the edge function. -/
structure DB where
  posts : List Post
  profiles : List Profile
  interactions : List FIRecord
  notifications : List NotificationRec
  cache : List CacheRow
  deriving DecidableEq

/-- Outcome of the remote `app.bsky.actor.getProfile` call: a parsed profile,
a non-OK HTTP response, or a thrown error. -/
inductive ProfileFetch where
  | ok (p : BskyProfile)
  | httpError (status : Nat)
  | threw
  deriving DecidableEq

/-- External environment of one processing run: the wall clock
(`Date.now()`, milliseconds) and the Bluesky profile endpoint. -/
structure Env where
  now_ms : Nat
  fetchProfile : String → ProfileFetch

/-- Rows of `federated_interactions` matching an idempotency key. -/
def filterFI (db : DB) (k : String) : List FIRecord :=
  db.interactions.filter (fun f => f.at_uri == k)

/-- Number of `federated_interactions` rows holding the idempotency key. -/
def countFI (db : DB) (k : String) : Nat :=
  (filterFI db k).length

/-- `.from("federated_interactions").select("id").eq("at_uri", k).maybeSingle()`. -/
def findFI (db : DB) (k : String) : Option FIRecord :=
  singleRow (filterFI db k)

/-- `.from("posts").select("id, user_id").eq("at_uri", u).single()`. -/
def findPost (db : DB) (u : String) : Option Post :=
  singleRow (db.posts.filter (fun p => p.at_uri == u))

/-- `.from("profiles").select("id").eq("did", d).single()`. -/
def findProfile (db : DB) (d : String) : Option Profile :=
  singleRow (db.profiles.filter (fun p => p.did == d))

/-- Insert into `federated_interactions`.  Modelled from the spec: the table's
DDL is not in the repository snapshot; per the spec, `external_record_uri`
(column `at_uri`) is globally unique — the idempotency key — so an insert
whose key already exists fails with a constraint violation (`none`) and
changes nothing. -/
def insertFI (db : DB) (rec : FIRecord) : Option DB :=
  if db.interactions.any (fun f => f.at_uri == rec.at_uri) then none
  else some { db with interactions := db.interactions ++ [rec] }

/-- `.from("federated_interactions").delete().eq("at_uri", k)`: removes every
matching row; deleting zero rows is not an error in PostgREST, so this
operation always succeeds. -/
def deleteFI (db : DB) (k : String) : DB :=
  { db with interactions := db.interactions.filter (fun f => !(f.at_uri == k)) }

/-- Modelled from the spec: the RPC `increment_post_likes` is not in the
repository snapshot; per the spec a counter increment adds one to the
aggregate counter of the targeted post. -/
def increment_post_likes (db : DB) (i : String) : DB :=
  { db with posts := db.posts.map (fun p =>
      if p.id == i then { p with likes_count := p.likes_count + 1 } else p) }

/-- Modelled from the spec: RPC `decrement_post_likes`, with the counter
clamped at a floor of zero (Nat subtraction). -/
def decrement_post_likes (db : DB) (i : String) : DB :=
  { db with posts := db.posts.map (fun p =>
      if p.id == i then { p with likes_count := p.likes_count - 1 } else p) }

/-- Modelled from the spec: RPC `increment_post_reposts`. -/
def increment_post_reposts (db : DB) (i : String) : DB :=
  { db with posts := db.posts.map (fun p =>
      if p.id == i then { p with reposts_count := p.reposts_count + 1 } else p) }

/-- Modelled from the spec: RPC `decrement_post_reposts`, clamped at zero. -/
def decrement_post_reposts (db : DB) (i : String) : DB :=
  { db with posts := db.posts.map (fun p =>
      if p.id == i then { p with reposts_count := p.reposts_count - 1 } else p) }

/-- Modelled from the spec: RPC `increment_post_replies`. -/
def increment_post_replies (db : DB) (i : String) : DB :=
  { db with posts := db.posts.map (fun p =>
      if p.id == i then { p with replies_count := p.replies_count + 1 } else p) }

/-- Modelled from the spec: RPC `increment_post_quotes`. -/
def increment_post_quotes (db : DB) (i : String) : DB :=
  { db with posts := db.posts.map (fun p =>
      if p.id == i then { p with quotes_count := p.quotes_count + 1 } else p) }

/-- Modelled from the spec: RPC `increment_profile_followers`. -/
def increment_profile_followers (db : DB) (i : String) : DB :=
  { db with profiles := db.profiles.map (fun p =>
      if p.id == i then { p with followers_count := p.followers_count + 1 } else p) }

/-- Modelled from the spec: RPC `decrement_profile_followers`, clamped at
zero. -/
def decrement_profile_followers (db : DB) (i : String) : DB :=
  { db with profiles := db.profiles.map (fun p =>
      if p.id == i then { p with followers_count := p.followers_count - 1 } else p) }

/-- `.from("bluesky_profile_cache").select("*").eq("did", d).maybeSingle()`. -/
def findCache (db : DB) (d : String) : Option CacheRow :=
  singleRow (db.cache.filter (fun r => r.did == d))

/-- `.from("bluesky_profile_cache").upsert({did, handle, display_name,
avatar, cached_at})`: replaces the row with the same `did` primary key, or
appends a new row. -/
def writeCache (db : DB) (d : String) (p : BskyProfile) (now : Nat) : DB :=
  let row : CacheRow :=
    { did := d, handle := p.handle, display_name := p.displayName
      avatar := p.avatar, cached_at := now }
  if db.cache.any (fun r => r.did == d) then
    { db with cache := db.cache.map (fun r => if r.did == d then row else r) }
  else
    { db with cache := db.cache ++ [row] }

/-- `getBlueskyProfile(supabase, did)`: returns the actor value handed to the
caller, the updated state, and the number of remote profile lookups
performed. -/
def getBlueskyProfile (env : Env) (db : DB) (did : String) :
    Option ActorObj × DB × Nat :=
  match findCache db did with
  | some cached =>
    if env.now_ms - cached.cached_at < PROFILE_CACHE_TTL_MS then
      (some (.fromCache cached), db, 0)
    else
      match env.fetchProfile did with
      | .ok p => (some (.fromApi p), writeCache db did p env.now_ms, 1)
      | .httpError _ => (none, db, 1)
      | .threw => (none, db, 1)
  | none =>
    match env.fetchProfile did with
    | .ok p => (some (.fromApi p), writeCache db did p env.now_ms, 1)
    | .httpError _ => (none, db, 1)
    | .threw => (none, db, 1)

/-- JavaScript `actor?.handle || actorDid.slice(0, 20)` (an absent or empty
handle falls back to the DID prefix). -/
def handleOrFallback (actor : Option ActorObj) (actorDid : String) : String :=
  match actor with
  | some a =>
    match a.handleField with
    | some h => if h.isEmpty then actorDid.take 20 else h
    | none => actorDid.take 20
  | none => actorDid.take 20

/-- `createExternalNotification(supabase, userId, actorDid, reason, postId)`. -/
def createExternalNotification (env : Env) (db : DB) (userId actorDid reason : String)
    (postId : Option String) : DB :=
  let r := getBlueskyProfile env db actorDid
  let actor := r.1
  let db1 := r.2.1
  { db1 with notifications := db1.notifications ++
      [{ user_id := userId, actor_did := actorDid
         actor_handle := handleOrFallback actor actorDid
         actor_display_name := actor.bind ActorObj.displayNameField
         actor_avatar := actor.bind ActorObj.avatarField
         reason := reason, post_id := postId, is_external := true }] }

/-- `handleLikeEvent(supabase, actorDid, operation, record, rkey)`. -/
def handleLikeEvent (env : Env) (db : DB) (actorDid operation : String)
    (record : Option RecordObj) (rkey : String) : DB :=
  match record.bind (fun r => r.subject_uri) with
  | none => db
  | some subjectUri =>
    if !(strIncludes subjectUri CANNECT_DOMAIN) then db
    else
      match findPost db subjectUri with
      | none => db
      | some post =>
        let interactionUri := "at://" ++ actorDid ++ "/app.bsky.feed.like/" ++ rkey
        if operation == "create" then
          match findFI db interactionUri with
          | some _ => db
          | none =>
            match insertFI db
                { post_id := some post.id, target_user_id := none
                  interaction_type := "like", actor_did := actorDid
                  at_uri := interactionUri, meta_text := none
                  meta_createdAt := none } with
            | none => db
            | some db1 =>
              let db2 := increment_post_likes db1 post.id
              createExternalNotification env db2 post.user_id actorDid "like"
                (some post.id)
        else if operation == "delete" then
          let db1 := deleteFI db interactionUri
          decrement_post_likes db1 post.id
        else db

/-- `handleRepostEvent(supabase, actorDid, operation, record, rkey)`. -/
def handleRepostEvent (env : Env) (db : DB) (actorDid operation : String)
    (record : Option RecordObj) (rkey : String) : DB :=
  match record.bind (fun r => r.subject_uri) with
  | none => db
  | some subjectUri =>
    if !(strIncludes subjectUri CANNECT_DOMAIN) then db
    else
      match findPost db subjectUri with
      | none => db
      | some post =>
        let interactionUri := "at://" ++ actorDid ++ "/app.bsky.feed.repost/" ++ rkey
        if operation == "create" then
          match findFI db interactionUri with
          | some _ => db
          | none =>
            match insertFI db
                { post_id := some post.id, target_user_id := none
                  interaction_type := "repost", actor_did := actorDid
                  at_uri := interactionUri, meta_text := none
                  meta_createdAt := none } with
            | none => db
            | some db1 =>
              let db2 := increment_post_reposts db1 post.id
              createExternalNotification env db2 post.user_id actorDid "repost"
                (some post.id)
        else if operation == "delete" then
          let db1 := deleteFI db interactionUri
          decrement_post_reposts db1 post.id
        else db

/-- The reply branch of `handlePostEvent` (processing of
`record.reply?.parent?.uri`). -/
def replyBranch (env : Env) (db : DB) (actorDid : String)
    (record : Option RecordObj) (interactionUri : String) : DB :=
  match record.bind (fun r => r.reply_parent_uri) with
  | none => db
  | some parentUri =>
    if !(strIncludes parentUri CANNECT_DOMAIN) then db
    else
      match findPost db parentUri with
      | none => db
      | some parentPost =>
        match findFI db interactionUri with
        | some _ => db
        | none =>
          match insertFI db
              { post_id := some parentPost.id, target_user_id := none
                interaction_type := "reply", actor_did := actorDid
                at_uri := interactionUri
                meta_text := record.bind (fun x => Option.map (fun t => t.take 500) x.text)
                meta_createdAt := record.bind (fun x => x.createdAt) } with
          | none => db
          | some db1 =>
            let db2 := increment_post_replies db1 parentPost.id
            createExternalNotification env db2 parentPost.user_id actorDid "reply"
              (some parentPost.id)

/-- The quote branch of `handlePostEvent` (processing of
`record.embed?.record?.uri`, under the disambiguated key
`interactionUri#quote`). -/
def quoteBranch (env : Env) (db : DB) (actorDid : String)
    (record : Option RecordObj) (interactionUri : String) : DB :=
  match record.bind (fun r => r.embed_record_uri) with
  | none => db
  | some quotedUri =>
    if !(strIncludes quotedUri CANNECT_DOMAIN) then db
    else
      match findPost db quotedUri with
      | none => db
      | some quotedPost =>
        let quoteInteractionUri := interactionUri ++ "#quote"
        match findFI db quoteInteractionUri with
        | some _ => db
        | none =>
          match insertFI db
              { post_id := some quotedPost.id, target_user_id := none
                interaction_type := "quote", actor_did := actorDid
                at_uri := quoteInteractionUri
                meta_text := record.bind (fun x => Option.map (fun t => t.take 500) x.text)
                meta_createdAt := record.bind (fun x => x.createdAt) } with
          | none => db
          | some db1 =>
            let db2 := increment_post_quotes db1 quotedPost.id
            createExternalNotification env db2 quotedPost.user_id actorDid "quote"
              (some quotedPost.id)

/-- `handlePostEvent(supabase, actorDid, operation, record, rkey)`: only
`create` operations are processed; the reply branch runs first and the quote
branch then runs on its result (a single post creation may be both). -/
def handlePostEvent (env : Env) (db : DB) (actorDid operation : String)
    (record : Option RecordObj) (rkey : String) : DB :=
  if !(operation == "create") then db
  else
    let interactionUri := "at://" ++ actorDid ++ "/app.bsky.feed.post/" ++ rkey
    quoteBranch env (replyBranch env db actorDid record interactionUri)
      actorDid record interactionUri

/-- `handleFollowEvent(supabase, actorDid, operation, record, rkey)`. -/
def handleFollowEvent (env : Env) (db : DB) (actorDid operation : String)
    (record : Option RecordObj) (rkey : String) : DB :=
  match record.bind (fun r => r.subject_did) with
  | none => db
  | some subjectDid =>
    if subjectDid.isEmpty then db
    else
      match findProfile db subjectDid with
      | none => db
      | some profile =>
        let interactionUri := "at://" ++ actorDid ++ "/app.bsky.graph.follow/" ++ rkey
        if operation == "create" then
          match findFI db interactionUri with
          | some _ => db
          | none =>
            match insertFI db
                { post_id := none, target_user_id := some profile.id
                  interaction_type := "follow", actor_did := actorDid
                  at_uri := interactionUri, meta_text := none
                  meta_createdAt := none } with
            | none => db
            | some db1 =>
              let db2 := increment_profile_followers db1 profile.id
              createExternalNotification env db2 profile.id actorDid "follow" none
        else if operation == "delete" then
          let db1 := deleteFI db interactionUri
          decrement_profile_followers db1 profile.id
        else db

/-- JavaScript `uri?.includes(CANNECT_DOMAIN)` coerced to a boolean: whether
an optional URI points into the local namespace. -/
def optIncludesDomain : Option String → Bool
  | some s => strIncludes s CANNECT_DOMAIN
  | none => false

/-- `isRelevantToCannect(event)`. -/
def isRelevantToCannect (e : Event) : Bool :=
  if !(e.kind == "commit") then false
  else
    match e.commit with
    | none => false
    | some c =>
      match c.record with
      | none => false
      | some r =>
        if optIncludesDomain r.subject_uri then true
        else if optIncludesDomain r.reply_parent_uri then true
        else if optIncludesDomain r.reply_root_uri then true
        else if optIncludesDomain r.embed_record_uri then true
        else if c.collection == "app.bsky.graph.follow" then true
        else false

/-- `processEvent(supabase, event)`: dispatch keyed on the collection. -/
def processEvent (env : Env) (db : DB) (e : Event) : DB :=
  match e.commit with
  | none => db
  | some c =>
    if c.collection == "app.bsky.feed.like" then
      handleLikeEvent env db e.did c.operation c.record c.rkey
    else if c.collection == "app.bsky.feed.repost" then
      handleRepostEvent env db e.did c.operation c.record c.rkey
    else if c.collection == "app.bsky.feed.post" then
      handlePostEvent env db e.did c.operation c.record c.rkey
    else if c.collection == "app.bsky.graph.follow" then
      handleFollowEvent env db e.did c.operation c.record c.rkey
    else db

/-- The event's operation, when a commit is present. -/
def eventOperation (e : Event) : Option String :=
  e.commit.map (fun c => c.operation)

/-- The event's collection, when a commit is present. -/
def eventCollection (e : Event) : Option String :=
  e.commit.map (fun c => c.collection)

/-- The record object of the event's commit, when present. -/
def eventRecord (e : Event) : Option RecordObj :=
  e.commit.bind (fun c => c.record)

/-- The row of the `jetstream_cursor` table (`id = 1`), restricted to the
columns the edge function reads and writes. -/
structure CursorRow where
  cursor_time_us : Nat
  events_processed : Nat
  last_error : Option String
  deriving DecidableEq

/-- Outcome of the Jetstream fetch: a connection timeout (`AbortError`),
a successful SSE response parsed into events, or any other fetch error
(including a non-OK HTTP status, which the source turns into a thrown
error). -/
inductive FetchOutcome where
  | timeout
  | ok (events : List Event)
  | fail (msg : String)
  deriving DecidableEq

/-- The JSON body the edge function responds with: the success summary
`{eventsReceived, eventsProcessed, cursor, durationMs}` or the failure
payload. -/
inductive ServeResponse where
  | ok (eventsReceived eventsProcessed cursor durationMs : Nat)
  | err (msg : String)
  deriving DecidableEq

/-- State of the per-event loop: the running cursor (`latestCursor`), the
local database, and `processedCount`. -/
structure LoopState where
  latest : Nat
  db : DB
  processed : Nat

/-- One iteration of the event loop.  `proc` stands for the awaited body of
`processEvent`, which may throw: it returns the (possibly partially mutated)
database and whether it threw; a thrown error is caught and the loop
continues, without counting the event as processed.  The cursor is advanced
before the relevance check, exactly as in the source. -/
def stepEvent (proc : DB → Event → DB × Bool) (st : LoopState) (e : Event) :
    LoopState :=
  let latest :=
    match e.time_us with
    | some t => if t > st.latest then t else st.latest
    | none => st.latest
  if isRelevantToCannect e then
    let r := proc st.db e
    { latest := latest, db := r.1
      processed := if r.2 then st.processed else st.processed + 1 }
  else
    { latest := latest, db := st.db, processed := st.processed }

/-- The event loop of one polling cycle. -/
def runLoop (proc : DB → Event → DB × Bool) (st : LoopState)
    (events : List Event) : LoopState :=
  events.foldl (stepEvent proc) st

/-- The non-throwing instantiation of the loop body: the shallow embedding
`processEvent` evaluated to completion. -/
def realProc (env : Env) : DB → Event → DB × Bool :=
  fun db e => (processEvent env db e, false)

/-- `cursorData?.cursor_time_us || (Date.now() * 1000)`: a stored value of 0
is falsy in JavaScript and falls back to the wall clock. -/
def effCursor (r : CursorRow) (nowUs : Nat) : Nat :=
  if r.cursor_time_us == 0 then nowUs else r.cursor_time_us

/-- One full invocation of the edge function (`serve`): reads the cursor row,
fetches a batch, runs the event loop, and commits the cursor — or, on a
cycle-level error (cursor fetch failure or non-timeout fetch error), leaves
the cursor position untouched and records the error in `last_error`. -/
def serveModel (proc : DB → Event → DB × Bool) (db : DB)
    (row : Option CursorRow) (nowUs : Nat) (fetch : FetchOutcome)
    (durationMs : Nat) : DB × Option CursorRow × ServeResponse :=
  match row with
  | none => (db, none, .err "Cursor fetch failed")
  | some r =>
    let cursor := effCursor r nowUs
    match fetch with
    | .fail msg => (db, some { r with last_error := some msg }, .err msg)
    | .timeout =>
      let final := runLoop proc { latest := cursor, db := db, processed := 0 } []
      (final.db,
       some { cursor_time_us := final.latest, events_processed := final.processed
              last_error := none },
       .ok 0 final.processed final.latest durationMs)
    | .ok events =>
      let final := runLoop proc { latest := cursor, db := db, processed := 0 } events
      (final.db,
       some { cursor_time_us := final.latest, events_processed := final.processed
              last_error := none },
       .ok events.length final.processed final.latest durationMs)

/-- The largest `time_us` over a batch, starting from the current cursor —
the value `latestCursor` holds after the loop. -/
def maxTimeUs (c : Nat) (events : List Event) : Nat :=
  events.foldl (fun acc e =>
    match e.time_us with
    | some t => if t > acc then t else acc
    | none => acc) c

/-- Field value of the first row of a result set (0 on an empty set). -/
def headVal {α : Type} (f : α → Nat) : List α → Nat
  | a :: _ => f a
  | [] => 0

/-- The likes counter of the post with a given id (first matching row; 0 when
no such post exists). -/
def postLikes (db : DB) (i : String) : Nat :=
  headVal (fun p => p.likes_count) (db.posts.filter (fun p => p.id == i))

/-- The reposts counter of the post with a given id. -/
def postReposts (db : DB) (i : String) : Nat :=
  headVal (fun p => p.reposts_count) (db.posts.filter (fun p => p.id == i))

/-- The replies counter of the post with a given id. -/
def postReplies (db : DB) (i : String) : Nat :=
  headVal (fun p => p.replies_count) (db.posts.filter (fun p => p.id == i))

/-- The quotes counter of the post with a given id. -/
def postQuotes (db : DB) (i : String) : Nat :=
  headVal (fun p => p.quotes_count) (db.posts.filter (fun p => p.id == i))

/-- The followers counter of the profile with a given id. -/
def profileFollowers (db : DB) (i : String) : Nat :=
  headVal (fun p => p.followers_count) (db.profiles.filter (fun p => p.id == i))

/-- Number of `like` interaction rows attached to a post. -/
def likeFIs (db : DB) (i : String) : Nat :=
  (db.interactions.filter
    (fun f => f.interaction_type == "like" && f.post_id == some i)).length

/-- Number of `repost` interaction rows attached to a post. -/
def repostFIs (db : DB) (i : String) : Nat :=
  (db.interactions.filter
    (fun f => f.interaction_type == "repost" && f.post_id == some i)).length

/-- Number of `reply` interaction rows attached to a post. -/
def replyFIs (db : DB) (i : String) : Nat :=
  (db.interactions.filter
    (fun f => f.interaction_type == "reply" && f.post_id == some i)).length

/-- Number of `quote` interaction rows attached to a post. -/
def quoteFIs (db : DB) (i : String) : Nat :=
  (db.interactions.filter
    (fun f => f.interaction_type == "quote" && f.post_id == some i)).length

/-- Number of `follow` interaction rows targeting a profile. -/
def followFIs (db : DB) (i : String) : Nat :=
  (db.interactions.filter
    (fun f => f.interaction_type == "follow" && f.target_user_id == some i)).length

/-- Every aggregate-counter mutation between two states is paired one-to-one
with the creation of a Federated Interaction row of the matching type: for
every id, the counter moved by exactly as much as the number of matching
interaction rows did (stated additively to stay in `Nat`). -/
def CountersPaired (db db2 : DB) : Prop :=
  ∀ i : String,
    postLikes db2 i + likeFIs db i = postLikes db i + likeFIs db2 i
    ∧ postReposts db2 i + repostFIs db i = postReposts db i + repostFIs db2 i
    ∧ postReplies db2 i + replyFIs db i = postReplies db i + replyFIs db2 i
    ∧ postQuotes db2 i + quoteFIs db i = postQuotes db i + quoteFIs db2 i
    ∧ profileFollowers db2 i + followFIs db i = profileFollowers db i + followFIs db2 i

/-- Whether a post row with the given id exists. -/
def postExists (db : DB) (i : String) : Bool :=
  db.posts.any (fun p => p.id == i)

/-- Program counter of one processing path running the create branch of
`handleLikeEvent` on a fixed idempotency key: about to run the existence
check, about to insert, about to increment the counter, about to emit the
notification, finished after a successful insert, or finished having dropped
the event (existence check hit, or insert rejected by the uniqueness
constraint). -/
inductive RacePC where
  | atCheck
  | atInsert
  | atIncrement
  | atNotify
  | doneApplied
  | doneDropped
  deriving DecidableEq

/-- One step of a single processing path, acting on the shared database.
The existence check, the constrained insert, the counter RPC and the
notification are the four awaited statements of the source's create branch;
each is one atomic step against the shared store. -/
def stepLike (env : Env) (postId owner actorDid k : String) (db : DB) :
    RacePC → DB × RacePC
  | .atCheck =>
    match findFI db k with
    | some _ => (db, .doneDropped)
    | none => (db, .atInsert)
  | .atInsert =>
    match insertFI db
        { post_id := some postId, target_user_id := none
          interaction_type := "like", actor_did := actorDid
          at_uri := k, meta_text := none, meta_createdAt := none } with
    | none => (db, .doneDropped)
    | some db1 => (db1, .atIncrement)
  | .atIncrement => (increment_post_likes db postId, .atNotify)
  | .atNotify =>
    (createExternalNotification env db owner actorDid "like" (some postId),
     .doneApplied)
  | .doneApplied => (db, .doneApplied)
  | .doneDropped => (db, .doneDropped)

/-- Shared state of two processing paths racing on the same idempotency key
(two deliveries of the same event, or inbound ingestion racing the outbound
write-through). -/
structure RaceState where
  db : DB
  p1 : RacePC
  p2 : RacePC

/-- One scheduler step: `true` advances the first path, `false` the second. -/
def raceStep (env : Env) (postId owner actorDid k : String) (s : RaceState)
    (who : Bool) : RaceState :=
  if who then
    let r := stepLike env postId owner actorDid k s.db s.p1
    { db := r.1, p1 := r.2, p2 := s.p2 }
  else
    let r := stepLike env postId owner actorDid k s.db s.p2
    { db := r.1, p1 := s.p1, p2 := r.2 }

/-- An arbitrary interleaving of the two paths. -/
def raceRun (env : Env) (postId owner actorDid k : String) (s : RaceState)
    (sched : List Bool) : RaceState :=
  sched.foldl (raceStep env postId owner actorDid k) s

/-- Whether a path has finished (in either way). -/
def RacePC.isDone : RacePC → Bool
  | .doneApplied => true
  | .doneDropped => true
  | _ => false

/-- Reference to a record issued by the PDS on a successful create. -/
structure RecordRef where
  uri : String
  cid : String
  deriving DecidableEq

/-- Outcome of the authenticated write against the external PDS: the returned
record reference, or a failure (network error, malformed target reference,
unrecovered authorization failure). -/
inductive PdsResult where
  | ok (ref : RecordRef)
  | err (msg : String)
  deriving DecidableEq

/-- The outbound actions of the write-through agent. -/
inductive OutboundAction where
  | like | unlike | repost | unrepost | follow | unfollow | reply
  deriving DecidableEq

/-- Modelled from the spec: the local mirroring the Outbound Write-Through
Agent performs after a successful PDS write (the `atproto-agent` edge
function is referenced by `docs/FEDERATION_TESTING.md` but its source is not
in the repository snapshot).  Per spec §4.5 the agent synchronously
creates/deletes the local mirror record under the externally-issued record
URI and adjusts the matching counter. -/
def applyLocalMirror (db : DB) (a : OutboundAction) (userId target : String)
    (ref : RecordRef) : DB :=
  match a with
  | .like =>
    match insertFI db
        { post_id := some target, target_user_id := none
          interaction_type := "like", actor_did := userId
          at_uri := ref.uri, meta_text := none, meta_createdAt := none } with
    | some db1 => increment_post_likes db1 target
    | none => db
  | .unlike => decrement_post_likes (deleteFI db ref.uri) target
  | .repost =>
    match insertFI db
        { post_id := some target, target_user_id := none
          interaction_type := "repost", actor_did := userId
          at_uri := ref.uri, meta_text := none, meta_createdAt := none } with
    | some db1 => increment_post_reposts db1 target
    | none => db
  | .unrepost => decrement_post_reposts (deleteFI db ref.uri) target
  | .follow =>
    match insertFI db
        { post_id := none, target_user_id := some target
          interaction_type := "follow", actor_did := userId
          at_uri := ref.uri, meta_text := none, meta_createdAt := none } with
    | some db1 => increment_profile_followers db1 target
    | none => db
  | .unfollow => decrement_profile_followers (deleteFI db ref.uri) target
  | .reply =>
    match insertFI db
        { post_id := some target, target_user_id := none
          interaction_type := "reply", actor_did := userId
          at_uri := ref.uri, meta_text := none, meta_createdAt := none } with
    | some db1 => increment_post_replies db1 target
    | none => db

/-- Modelled from the spec: `perform(action, localUserId, target)` of the
Outbound Write-Through Agent.  The PDS write runs first (its outcome is the
`pds` input); only after remote success is the local mirror written.  On
failure the error is surfaced to the caller and the local state is returned
unchanged. -/
def performOutbound (db : DB) (a : OutboundAction) (userId target : String)
    (pds : PdsResult) : Except String RecordRef × DB :=
  match pds with
  | .err msg => (.error msg, db)
  | .ok ref => (.ok ref, applyLocalMirror db a userId target ref)

/-- Subject URI carried by the event's record, as the relevance filter reads
it. -/
def eventSubjectUri (e : Event) : Option String :=
  (eventRecord e).bind (fun r => r.subject_uri)

/-- Reply-parent URI carried by the event's record. -/
def eventReplyParentUri (e : Event) : Option String :=
  (eventRecord e).bind (fun r => r.reply_parent_uri)

/-- Reply-root URI carried by the event's record. -/
def eventReplyRootUri (e : Event) : Option String :=
  (eventRecord e).bind (fun r => r.reply_root_uri)

/-- Quoted-record URI carried by the event's record. -/
def eventEmbedUri (e : Event) : Option String :=
  (eventRecord e).bind (fun r => r.embed_record_uri)

/-- An environment whose remote profile endpoint always throws. -/
def envNoFetch : Env := { now_ms := 0, fetchProfile := fun _ => .threw }

/-- An empty local database. -/
def emptyDB : DB :=
  { posts := [], profiles := [], interactions := [], notifications := [], cache := [] }

/-- A loop body that never mutates and never throws. -/
def procId : DB → Event → DB × Bool := fun db _ => (db, false)

/-- An initial loop state over the empty database. -/
def st0 : LoopState := { latest := 0, db := emptyDB, processed := 0 }

/-- A local post with five likes, published under the local namespace. -/
def c3post : Post :=
  { id := "p1", user_id := "u1", at_uri := "at://cannect.space/post/1"
    likes_count := 5, reposts_count := 0, replies_count := 0, quotes_count := 0 }

/-- A database holding that post and no interactions at all. -/
def c3db : DB :=
  { posts := [c3post], profiles := [], interactions := [], notifications := []
    cache := [] }

/-- A like record pointing at the local post. -/
def c3record : RecordObj :=
  { subject_uri := some "at://cannect.space/post/1", subject_did := none
    reply_parent_uri := none, reply_root_uri := none, embed_record_uri := none
    text := none, createdAt := none }

/-- A like `delete` event whose idempotency key was never applied. -/
def c3event : Event :=
  { did := "did:plc:alice", kind := "commit", time_us := some 11
    commit := some { operation := "delete", collection := "app.bsky.feed.like"
                     rkey := "r1", record := some c3record } }

/-- The idempotency key of `c3event`. -/
def c3key : String := "at://did:plc:alice/app.bsky.feed.like/r1"

/-- A follow record (bare subject DID). -/
def c4record : RecordObj :=
  { subject_uri := none, subject_did := some "did:x"
    reply_parent_uri := none, reply_root_uri := none, embed_record_uri := none
    text := none, createdAt := none }

/-- First batch event (position 10), processed successfully. -/
def c4e1 : Event :=
  { did := "d1", kind := "commit", time_us := some 10
    commit := some { operation := "create", collection := "app.bsky.graph.follow"
                     rkey := "k1", record := some c4record } }

/-- Second batch event (position 20), whose processing raises. -/
def c4e2 : Event :=
  { did := "d2", kind := "commit", time_us := some 20
    commit := some { operation := "create", collection := "app.bsky.graph.follow"
                     rkey := "k2", record := some c4record } }

/-- Third batch event (position 30), processed successfully. -/
def c4e3 : Event :=
  { did := "d3", kind := "commit", time_us := some 30
    commit := some { operation := "create", collection := "app.bsky.graph.follow"
                     rkey := "k3", record := some c4record } }

/-- A loop body that raises exactly on the event at position 20. -/
def c4proc : DB → Event → DB × Bool := fun db e => (db, e.time_us == some 20)

/-- The cursor row before the cycle of the cursor counterexample. -/
def c4row : CursorRow :=
  { cursor_time_us := 5, events_processed := 0, last_error := none }

/-- A like create event on a URI entirely outside the local namespace. -/
def c6record : RecordObj :=
  { subject_uri := some "at://did:plc:zzz/app.bsky.feed.post/9"
    subject_did := none, reply_parent_uri := none, reply_root_uri := none
    embed_record_uri := none, text := none, createdAt := none }

/-- The irrelevant event used as C6's concrete instance. -/
def c6event : Event :=
  { did := "did:plc:alice", kind := "commit", time_us := some 42
    commit := some { operation := "create", collection := "app.bsky.feed.like"
                     rkey := "r9", record := some c6record } }

/-- A like delete event delivered, as Jetstream delivers deletes, without a
record payload. -/
def c10event : Event :=
  { did := "did:plc:alice", kind := "commit", time_us := some 12
    commit := some { operation := "delete", collection := "app.bsky.feed.like"
                     rkey := "r1", record := none } }

/-- A cached Bluesky actor profile, 500 ms old. -/
def c9row : CacheRow :=
  { did := "did:a", handle := some "alice.test", display_name := some "Alice"
    avatar := none, cached_at := 500 }

/-- A database whose profile cache holds exactly `c9row`. -/
def c9db : DB :=
  { posts := [], profiles := [], interactions := [], notifications := []
    cache := [c9row] }

/-- Number of successful inserts a path has performed: 1 once it is at or past
the counter increment. -/
def wApplied : RacePC → Nat
  | .atIncrement => 1
  | .atNotify => 1
  | .doneApplied => 1
  | _ => 0

/-- Number of counter increments a path has performed: 1 once it is past the
increment step. -/
def vIncr : RacePC → Nat
  | .atNotify => 1
  | .doneApplied => 1
  | _ => 0

/-- Invariant of the two-path race on one idempotency key `k` targeting post
`pid`: the number of interaction rows under `k` equals the number of
successful inserts and never exceeds one; the likes counter has moved exactly
by the number of performed increments; the target post row persists; and a
path only ever drops when a row under `k` exists. -/
def RaceInv (pid k : String) (likes0 : Nat) (s : RaceState) : Prop :=
  countFI s.db k = wApplied s.p1 + wApplied s.p2
  ∧ countFI s.db k ≤ 1
  ∧ postLikes s.db pid = likes0 + vIncr s.p1 + vIncr s.p2
  ∧ postExists s.db pid = true
  ∧ (s.p1 = .doneDropped → countFI s.db k = 1)
  ∧ (s.p2 = .doneDropped → countFI s.db k = 1)

/-- The like create event used as C1's concrete instance. -/
def c1event : Event :=
  { did := "did:plc:alice", kind := "commit", time_us := some 10
    commit := some { operation := "create", collection := "app.bsky.feed.like"
                     rkey := "r1", record := some c3record } }

/-- The idempotency key of `c1event`. -/
def c1key : String := "at://did:plc:alice/app.bsky.feed.like/r1"

/-- Swap the two paths of a race state. -/
def raceSwap (s : RaceState) : RaceState :=
  { db := s.db, p1 := s.p2, p2 := s.p1 }

/-- The idempotency key raced on in C2's concrete run. -/
def c2key : String := "at://did:plc:bob/app.bsky.feed.like/rx"

/-- A schedule in which both paths pass the existence check before either
inserts: path one then wins the insert and completes; path two's insert is
rejected by the uniqueness constraint and it drops. -/
def c2sched : List Bool := [true, false, true, false, true, true]

theorem stepEvent_latest (proc : DB → Event → DB × Bool) (st : LoopState)
    (e : Event) :
    (stepEvent proc st e).latest =
      (match e.time_us with
       | some t => if t > st.latest then t else st.latest
       | none => st.latest) := by
  cases hrel : isRelevantToCannect e <;> simp [stepEvent, hrel]

theorem stepEvent_not_relevant (proc : DB → Event → DB × Bool) (st : LoopState)
    (e : Event) (h : isRelevantToCannect e = false) :
    (stepEvent proc st e).db = st.db
    ∧ (stepEvent proc st e).processed = st.processed := by
  unfold stepEvent
  rw [h]
  exact ⟨rfl, rfl⟩

theorem runLoop_latest (proc : DB → Event → DB × Bool) (events : List Event) :
    ∀ st : LoopState, (runLoop proc st events).latest = maxTimeUs st.latest events := by
  induction events with
  | nil => intro st; rfl
  | cons e t ih =>
    intro st
    show (runLoop proc (stepEvent proc st e) t).latest = _
    rw [ih, stepEvent_latest]
    rfl

theorem maxTimeUs_ge (events : List Event) : ∀ c : Nat, c ≤ maxTimeUs c events := by
  induction events with
  | nil => intro c; exact Nat.le_refl c
  | cons e t ih =>
    intro c
    show c ≤ maxTimeUs (match e.time_us with
       | some u => if u > c then u else c
       | none => c) t
    refine Nat.le_trans ?_ (ih _)
    cases e.time_us with
    | none => exact Nat.le_refl c
    | some u =>
      by_cases h : u > c
      · simp only [h, if_true]; exact Nat.le_of_lt h
      · simp only [h, if_false]; exact Nat.le_refl c

theorem effCursor_ge (r : CursorRow) (nowUs : Nat) :
    r.cursor_time_us ≤ effCursor r nowUs := by
  unfold effCursor
  by_cases h : r.cursor_time_us = 0
  · simp [h]
  · simp [h]

/-- C4, counterexample: in a batch whose middle event (stream position 20)
raises a processing error and whose later event (position 30) succeeds, the
committed cursor is 30 — strictly past the failed event — so the failed event
is not re-delivered, contradicting the claim that the cursor is never past an
event whose processing raised an error. -/
theorem c4_counterexample :
    (serveModel c4proc emptyDB (some c4row) 999 (.ok [c4e1, c4e2, c4e3]) 7).2.1 =
      some { cursor_time_us := 30, events_processed := 2, last_error := none }
    ∧ (c4proc emptyDB c4e2).2 = true
    ∧ 20 < 30 := by
  refine ⟨by decide, by decide, by decide⟩

/-- C4, amended: per-event processing errors are caught and the event is
skipped; the committed cursor of a non-failing cycle is the maximum stream
position over all received events — including events whose processing raised
an error — so such events are not re-delivered.  Only a cycle-level failure
leaves the cursor position unchanged (recording the error). -/
theorem c4_cursor_commits_max_position (proc : DB → Event → DB × Bool)
    (db : DB) (r : CursorRow) (nowUs dur : Nat) (events : List Event) :
    ((serveModel proc db (some r) nowUs (.ok events) dur).2.1 =
      some { cursor_time_us := maxTimeUs (effCursor r nowUs) events
             events_processed :=
               (runLoop proc { latest := effCursor r nowUs, db := db
                               processed := 0 } events).processed
             last_error := none })
    ∧ ∀ msg : String,
        (serveModel proc db (some r) nowUs (.fail msg) dur).2.1 =
          some { r with last_error := some msg } := by
  constructor
  · show some _ = some _
    rw [← runLoop_latest proc events { latest := effCursor r nowUs, db := db, processed := 0 }]
  · intro msg; rfl

/-- C5: the stored cursor position is monotone — after any polling cycle the
persisted value is at least its prior value — and a cycle that fails with a
cycle-level error leaves the position unchanged while recording the error in
`last_error`. -/
theorem c5_cursor_monotone (proc : DB → Event → DB × Bool) (db : DB)
    (r : CursorRow) (nowUs dur : Nat) :
    (∀ fetch : FetchOutcome, ∃ r2 : CursorRow,
        (serveModel proc db (some r) nowUs fetch dur).2.1 = some r2
        ∧ r.cursor_time_us ≤ r2.cursor_time_us)
    ∧ ∀ msg : String,
        (serveModel proc db (some r) nowUs (.fail msg) dur).2.1 =
          some { r with last_error := some msg } := by
  constructor
  · intro fetch
    cases fetch with
    | fail msg =>
      exact ⟨{ r with last_error := some msg }, rfl, Nat.le_refl _⟩
    | timeout =>
      refine ⟨_, rfl, ?_⟩
      exact effCursor_ge r nowUs
    | ok events =>
      refine ⟨_, rfl, ?_⟩
      show r.cursor_time_us ≤ (runLoop proc _ events).latest
      rw [runLoop_latest]
      exact Nat.le_trans (effCursor_ge r nowUs) (maxTimeUs_ge events _)
  · intro msg; rfl

/-- C8: a connection timeout during the Jetstream fetch is a normal
end-of-batch condition — the cycle completes, commits the cursor with
`last_error` cleared, and reports the `{eventsReceived, eventsProcessed,
cursor, durationMs}` success summary — whereas any non-timeout fetch error
aborts the cycle as a failure. -/
theorem c8_timeout_is_end_of_batch (proc : DB → Event → DB × Bool) (db : DB)
    (r : CursorRow) (nowUs dur : Nat) :
    (serveModel proc db (some r) nowUs .timeout dur =
      (db,
       some { cursor_time_us := effCursor r nowUs, events_processed := 0
              last_error := none },
       .ok 0 0 (effCursor r nowUs) dur))
    ∧ ∀ msg : String,
        serveModel proc db (some r) nowUs (.fail msg) dur =
          (db, some { r with last_error := some msg }, .err msg) := by
  exact ⟨rfl, fun msg => rfl⟩

theorem isRelevant_false_of_no_local_refs (e : Event)
    (h1 : optIncludesDomain (eventSubjectUri e) = false)
    (h2 : optIncludesDomain (eventReplyParentUri e) = false)
    (h3 : optIncludesDomain (eventReplyRootUri e) = false)
    (h4 : optIncludesDomain (eventEmbedUri e) = false)
    (h5 : eventCollection e ≠ some "app.bsky.graph.follow") :
    isRelevantToCannect e = false := by
  unfold isRelevantToCannect
  cases hk : e.kind == "commit" with
  | false => simp
  | true =>
    simp only [Bool.not_true, Bool.false_eq_true, if_false]
    cases hc : e.commit with
    | none => rfl
    | some c =>
      cases hr : c.record with
      | none => simp [hr]
      | some r =>
        have hb1 : optIncludesDomain r.subject_uri = false := by
          simpa [eventSubjectUri, eventRecord, hc, hr] using h1
        have hb2 : optIncludesDomain r.reply_parent_uri = false := by
          simpa [eventReplyParentUri, eventRecord, hc, hr] using h2
        have hb3 : optIncludesDomain r.reply_root_uri = false := by
          simpa [eventReplyRootUri, eventRecord, hc, hr] using h3
        have hb4 : optIncludesDomain r.embed_record_uri = false := by
          simpa [eventEmbedUri, eventRecord, hc, hr] using h4
        have hb5 : (c.collection == "app.bsky.graph.follow") = false := by
          apply Bool.eq_false_iff.mpr
          intro hbeq
          apply h5
          have hcoll : c.collection = "app.bsky.graph.follow" := eq_of_beq hbeq
          simp [eventCollection, hc, hcoll]
        simp [hr, hb1, hb2, hb3, hb4, hb5]

/-- C6: an inbound event with no reference into the local namespace (subject,
reply parent, reply root and quoted-record URIs all outside the local domain)
that is not a follow-collection event is classified irrelevant; processing a
batch containing it leaves the local database — interaction records and all
aggregate counters — untouched for that event, and does not count it as
processed. -/
theorem c6_irrelevant_never_persisted (proc : DB → Event → DB × Bool)
    (st : LoopState) (e : Event)
    (h1 : optIncludesDomain (eventSubjectUri e) = false)
    (h2 : optIncludesDomain (eventReplyParentUri e) = false)
    (h3 : optIncludesDomain (eventReplyRootUri e) = false)
    (h4 : optIncludesDomain (eventEmbedUri e) = false)
    (h5 : eventCollection e ≠ some "app.bsky.graph.follow") :
    isRelevantToCannect e = false
    ∧ (stepEvent proc st e).db = st.db
    ∧ (stepEvent proc st e).processed = st.processed := by
  have hrel := isRelevant_false_of_no_local_refs e h1 h2 h3 h4 h5
  exact ⟨hrel, (stepEvent_not_relevant proc st e hrel).1,
    (stepEvent_not_relevant proc st e hrel).2⟩

theorem c6_witness :
    (optIncludesDomain (eventSubjectUri c6event) = false
     ∧ optIncludesDomain (eventReplyParentUri c6event) = false
     ∧ optIncludesDomain (eventReplyRootUri c6event) = false
     ∧ optIncludesDomain (eventEmbedUri c6event) = false
     ∧ eventCollection c6event ≠ some "app.bsky.graph.follow")
    ∧ (isRelevantToCannect c6event = false
       ∧ (stepEvent procId st0 c6event).db = st0.db
       ∧ (stepEvent procId st0 c6event).processed = st0.processed) :=
  ⟨⟨by decide, by decide, by decide, by decide, by decide⟩,
   c6_irrelevant_never_persisted procId st0 c6event (by decide) (by decide)
     (by decide) (by decide) (by decide)⟩

/-- C10: an event whose kind is not `commit`, or whose commit carries no
record object, is classified irrelevant and discarded before reaching any
handler — in particular a delete event delivered without a record payload is
never processed, so it removes no interaction record and decrements no
counter. -/
theorem c10_recordless_discarded (proc : DB → Event → DB × Bool)
    (st : LoopState) (e : Event)
    (h : e.kind ≠ "commit" ∨ eventRecord e = none) :
    isRelevantToCannect e = false
    ∧ (stepEvent proc st e).db = st.db
    ∧ (stepEvent proc st e).processed = st.processed := by
  have hrel : isRelevantToCannect e = false := by
    unfold isRelevantToCannect
    cases h with
    | inl hkind =>
      have hk : (e.kind == "commit") = false := by
        apply Bool.eq_false_iff.mpr
        intro hb
        exact hkind (eq_of_beq hb)
      simp [hk]
    | inr hrec =>
      cases hk : e.kind == "commit" with
      | false => simp
      | true =>
        simp only [Bool.not_true, Bool.false_eq_true, if_false]
        cases hc : e.commit with
        | none => rfl
        | some c =>
          have hcr : c.record = none := by
            simpa [eventRecord, hc] using hrec
          simp [hcr]
  exact ⟨hrel, (stepEvent_not_relevant proc st e hrel).1,
    (stepEvent_not_relevant proc st e hrel).2⟩

theorem c10_witness :
    (c10event.kind ≠ "commit" ∨ eventRecord c10event = none)
    ∧ (isRelevantToCannect c10event = false
       ∧ (stepEvent procId st0 c10event).db = st0.db
       ∧ (stepEvent procId st0 c10event).processed = st0.processed) :=
  ⟨Or.inr (by decide),
   c10_recordless_discarded procId st0 c10event (Or.inr (by decide))⟩

/-- C3, behavior at the failing input: a like `delete` event that carries a
record pointing at a local post, whose idempotency key has no existing
Federated Interaction.  The event passes the relevance filter, no interaction
row exists or is deleted, and yet the likes counter is decremented from 5 to
4 — the code calls the decrement RPC whenever the (always error-free) delete
of zero rows returns, instead of dropping the event as the spec requires. -/
theorem c3_delete_without_create_decrements :
    isRelevantToCannect c3event = true
    ∧ countFI c3db c3key = 0
    ∧ postLikes c3db "p1" = 5
    ∧ (processEvent envNoFetch c3db c3event).interactions = c3db.interactions
    ∧ postLikes (processEvent envNoFetch c3db c3event) "p1" = 4 := by
  refine ⟨by decide, by decide, by decide, by decide, by decide⟩

/-- C7: for every outbound action, when the PDS write fails the error is
surfaced to the caller and the local state is returned entirely unchanged —
no Federated Interaction is created or deleted and no counter moves; local
state changes only after remote success. -/
theorem c7_outbound_failure_no_local_mutation (db : DB) (a : OutboundAction)
    (userId target msg : String) :
    performOutbound db a userId target (.err msg) = (.error msg, db) := rfl

/-- C9: profile resolution — a cache entry younger than the TTL is returned
with no remote call and no state change; on a miss or an expired entry
exactly one remote lookup runs, a fetched profile is written to the cache and
returned fresh; and a failed remote lookup (non-OK response or thrown error)
yields `null` without raising, so the enclosing notification emission still
completes, inserting its row with the placeholder actor display (the DID
prefix). -/
theorem c9_profile_resolution (env : Env) (db : DB) (did uid reason : String)
    (pid : Option String) :
    (∀ row : CacheRow, findCache db did = some row →
        env.now_ms - row.cached_at < PROFILE_CACHE_TTL_MS →
        getBlueskyProfile env db did = (some (.fromCache row), db, 0))
    ∧ ((findCache db did = none
        ∨ ∃ row : CacheRow, findCache db did = some row
            ∧ PROFILE_CACHE_TTL_MS ≤ env.now_ms - row.cached_at) →
        ((getBlueskyProfile env db did).2.2 = 1
         ∧ (∀ p : BskyProfile, env.fetchProfile did = .ok p →
              getBlueskyProfile env db did =
                (some (.fromApi p), writeCache db did p env.now_ms, 1))
         ∧ ((∀ p : BskyProfile, env.fetchProfile did ≠ .ok p) →
              getBlueskyProfile env db did = (none, db, 1)
              ∧ createExternalNotification env db uid did reason pid =
                  { db with notifications := db.notifications ++
                      [{ user_id := uid, actor_did := did
                         actor_handle := did.take 20
                         actor_display_name := none, actor_avatar := none
                         reason := reason, post_id := pid
                         is_external := true }] }))) := by
  constructor
  · intro row hrow httl
    unfold getBlueskyProfile
    rw [hrow]
    simp [httl]
  · intro hmiss
    have hbase : getBlueskyProfile env db did =
        (match env.fetchProfile did with
         | .ok p => (some (.fromApi p), writeCache db did p env.now_ms, 1)
         | .httpError _ => (none, db, 1)
         | .threw => (none, db, 1)) := by
      unfold getBlueskyProfile
      cases hrow : findCache db did with
      | none => rfl
      | some row =>
        cases hmiss with
        | inl h0 => rw [hrow] at h0; exact Option.noConfusion h0
        | inr hstale =>
          obtain ⟨row2, hrow2, httl⟩ := hstale
          rw [hrow] at hrow2
          have : row2 = row := (Option.some_inj.mp hrow2).symm
          subst this
          simp [Nat.not_lt.mpr httl]
    refine ⟨?_, ?_, ?_⟩
    · rw [hbase]; cases env.fetchProfile did <;> rfl
    · intro p hp; rw [hbase, hp]
    · intro hfail
      have hres : getBlueskyProfile env db did = (none, db, 1) := by
        rw [hbase]
        cases hf : env.fetchProfile did with
        | ok p => exact absurd hf (hfail p)
        | httpError s => rfl
        | threw => rfl
      refine ⟨hres, ?_⟩
      unfold createExternalNotification
      rw [hres]
      rfl

theorem c9_witness :
    (findCache c9db "did:a" = some c9row
     ∧ envNoFetch.now_ms - c9row.cached_at < PROFILE_CACHE_TTL_MS
     ∧ findCache emptyDB "did:a" = none)
    ∧ getBlueskyProfile envNoFetch c9db "did:a" =
        (some (.fromCache c9row), c9db, 0)
    ∧ getBlueskyProfile envNoFetch emptyDB "did:a" = (none, emptyDB, 1)
    ∧ createExternalNotification envNoFetch emptyDB "u7" "did:a" "like" none =
        { emptyDB with notifications :=
            [{ user_id := "u7", actor_did := "did:a"
               actor_handle := "did:a".take 20
               actor_display_name := none, actor_avatar := none
               reason := "like", post_id := none, is_external := true }] } := by
  have hfresh := (c9_profile_resolution envNoFetch c9db "did:a" "u7" "like" none).1
    c9row (by decide) (by decide)
  have hmiss := (c9_profile_resolution envNoFetch emptyDB "did:a" "u7" "like" none).2
    (Or.inl (by decide))
  have hfail := hmiss.2.2 (fun p hp => ProfileFetch.noConfusion hp)
  exact ⟨⟨by decide, by decide, by decide⟩, hfresh, hfail.1, hfail.2⟩

theorem filter_map_comm {α : Type} (g : α → α) (q : α → Bool)
    (hq : ∀ a, q (g a) = q a) :
    ∀ l : List α, (l.map g).filter q = (l.filter q).map g := by
  intro l
  induction l with
  | nil => rfl
  | cons a t ih =>
    cases hqa : q a with
    | true => simp [List.filter_cons, hq a, hqa, ih]
    | false => simp [List.filter_cons, hq a, hqa, ih]

theorem singleRow_map {α : Type} (g : α → α) :
    ∀ l : List α, singleRow (l.map g) = (singleRow l).map g := by
  intro l
  cases l with
  | nil => rfl
  | cons a t => cases t <;> rfl

theorem headVal_map {α : Type} (f : α → Nat) (g : α → α) (l : List α) :
    headVal f (l.map g) = headVal (fun a => f (g a)) l := by
  cases l <;> rfl

theorem headVal_congr_on {α : Type} (f1 f2 : α → Nat) (l : List α)
    (h : ∀ a ∈ l, f1 a = f2 a) : headVal f1 l = headVal f2 l := by
  cases l with
  | nil => rfl
  | cons a t => exact h a (List.mem_cons_self a t)

theorem headVal_succ {α : Type} (f : α → Nat) (l : List α) (h : l ≠ []) :
    headVal (fun a => f a + 1) l = headVal f l + 1 := by
  cases l with
  | nil => exact absurd rfl h
  | cons a t => rfl

theorem length_filter_append_one {α : Type} (q : α → Bool) (l : List α) (x : α) :
    ((l ++ [x]).filter q).length =
      (l.filter q).length + (if q x then 1 else 0) := by
  rw [List.filter_append, List.length_append]
  cases hx : q x <;> simp [List.filter_cons, hx]

theorem mem_of_singleRow {α : Type} (l : List α) (x : α)
    (h : singleRow l = some x) : x ∈ l := by
  cases l with
  | nil => exact absurd h (by simp [singleRow])
  | cons a t =>
    cases t with
    | nil =>
      have : a = x := Option.some_inj.mp h
      rw [this]
      exact List.mem_cons_self x []
    | cons b t2 => exact absurd h (by simp [singleRow])

theorem findPost_mem (db : DB) (u : String) (p : Post)
    (h : findPost db u = some p) : p ∈ db.posts := by
  have := mem_of_singleRow _ p h
  exact (List.mem_filter.mp this).1

theorem findProfile_mem (db : DB) (d : String) (p : Profile)
    (h : findProfile db d = some p) : p ∈ db.profiles := by
  have := mem_of_singleRow _ p h
  exact (List.mem_filter.mp this).1

theorem postExists_of_mem (db : DB) (p : Post) (h : p ∈ db.posts) :
    postExists db p.id = true := by
  unfold postExists
  exact List.any_eq_true.mpr ⟨p, h, by simp⟩

theorem profileExists_any (db : DB) (p : Profile) (h : p ∈ db.profiles) :
    db.profiles.any (fun q => q.id == p.id) = true :=
  List.any_eq_true.mpr ⟨p, h, by simp⟩

theorem findPost_of_posts_map (db2 db : DB) (g : Post → Post) (u : String)
    (hposts : db2.posts = db.posts.map g)
    (hat : ∀ p, (g p).at_uri = p.at_uri) :
    findPost db2 u = (findPost db u).map g := by
  unfold findPost
  rw [hposts, filter_map_comm g _ (fun p => by rw [hat p]), singleRow_map]

theorem writeCache_posts (db : DB) (d : String) (p : BskyProfile) (n : Nat) :
    (writeCache db d p n).posts = db.posts := by
  unfold writeCache; split <;> rfl

theorem writeCache_interactions (db : DB) (d : String) (p : BskyProfile) (n : Nat) :
    (writeCache db d p n).interactions = db.interactions := by
  unfold writeCache; split <;> rfl

theorem writeCache_profiles (db : DB) (d : String) (p : BskyProfile) (n : Nat) :
    (writeCache db d p n).profiles = db.profiles := by
  unfold writeCache; split <;> rfl

theorem getBlueskyProfile_posts (env : Env) (db : DB) (d : String) :
    ((getBlueskyProfile env db d).2.1).posts = db.posts := by
  unfold getBlueskyProfile
  cases findCache db d with
  | none => cases env.fetchProfile d <;> simp [writeCache_posts]
  | some row =>
    by_cases h : env.now_ms - row.cached_at < PROFILE_CACHE_TTL_MS
    · simp [h]
    · cases env.fetchProfile d <;> simp [h, writeCache_posts]

theorem getBlueskyProfile_interactions (env : Env) (db : DB) (d : String) :
    ((getBlueskyProfile env db d).2.1).interactions = db.interactions := by
  unfold getBlueskyProfile
  cases findCache db d with
  | none => cases env.fetchProfile d <;> simp [writeCache_interactions]
  | some row =>
    by_cases h : env.now_ms - row.cached_at < PROFILE_CACHE_TTL_MS
    · simp [h]
    · cases env.fetchProfile d <;> simp [h, writeCache_interactions]

theorem getBlueskyProfile_profiles (env : Env) (db : DB) (d : String) :
    ((getBlueskyProfile env db d).2.1).profiles = db.profiles := by
  unfold getBlueskyProfile
  cases findCache db d with
  | none => cases env.fetchProfile d <;> simp [writeCache_profiles]
  | some row =>
    by_cases h : env.now_ms - row.cached_at < PROFILE_CACHE_TTL_MS
    · simp [h]
    · cases env.fetchProfile d <;> simp [h, writeCache_profiles]

theorem notif_posts (env : Env) (db : DB) (u a r : String) (pid : Option String) :
    (createExternalNotification env db u a r pid).posts = db.posts := by
  unfold createExternalNotification
  exact getBlueskyProfile_posts env db a

theorem notif_interactions (env : Env) (db : DB) (u a r : String) (pid : Option String) :
    (createExternalNotification env db u a r pid).interactions = db.interactions := by
  unfold createExternalNotification
  exact getBlueskyProfile_interactions env db a

theorem notif_profiles (env : Env) (db : DB) (u a r : String) (pid : Option String) :
    (createExternalNotification env db u a r pid).profiles = db.profiles := by
  unfold createExternalNotification
  exact getBlueskyProfile_profiles env db a

theorem insertFI_some (db : DB) (rec : FIRecord) (d : DB)
    (h : insertFI db rec = some d) :
    d = { db with interactions := db.interactions ++ [rec] }
    ∧ db.interactions.any (fun f => f.at_uri == rec.at_uri) = false := by
  unfold insertFI at h
  split at h
  · exact absurd h (by simp)
  · next hany =>
    exact ⟨(Option.some_inj.mp h).symm, Bool.not_eq_true _ ▸ eq_false_of_ne_true hany⟩

theorem insertFI_none (db : DB) (rec : FIRecord)
    (h : insertFI db rec = none) :
    db.interactions.any (fun f => f.at_uri == rec.at_uri) = true := by
  unfold insertFI at h
  split at h
  · next hany => exact hany
  · exact absurd h (by simp)

theorem countFI_eq_zero_of_any_false (db : DB) (k : String)
    (h : db.interactions.any (fun f => f.at_uri == k) = false) :
    countFI db k = 0 := by
  unfold countFI filterFI
  rw [List.filter_eq_nil_iff.mpr (List.any_eq_false.mp h)]
  rfl

theorem countFI_pos_of_any_true (db : DB) (k : String)
    (h : db.interactions.any (fun f => f.at_uri == k) = true) :
    1 ≤ countFI db k := by
  obtain ⟨x, hx, hq⟩ := List.any_eq_true.mp h
  have hmem : x ∈ filterFI db k := List.mem_filter.mpr ⟨hx, hq⟩
  have : 0 < (filterFI db k).length := List.length_pos.mpr (List.ne_nil_of_mem hmem)
  exact this

theorem countFI_one_of_findFI_some (db : DB) (k : String) (x : FIRecord)
    (h : findFI db k = some x) : countFI db k = 1 := by
  unfold findFI singleRow at h
  unfold countFI
  cases hl : filterFI db k with
  | nil => rw [hl] at h; exact absurd h (by simp)
  | cons a t =>
    cases t with
    | nil => rfl
    | cons b t2 => rw [hl] at h; exact absurd h (by simp)

theorem findFI_none_of_countFI_zero (db : DB) (k : String)
    (h : countFI db k = 0) : findFI db k = none := by
  unfold countFI at h
  unfold findFI
  rw [List.length_eq_zero.mp h]
  rfl

theorem countFI_append (db : DB) (rec : FIRecord) (k : String) :
    countFI { db with interactions := db.interactions ++ [rec] } k =
      countFI db k + (if rec.at_uri == k then 1 else 0) := by
  unfold countFI filterFI
  show (List.filter _ (db.interactions ++ [rec])).length = _
  rw [List.filter_append, List.length_append]
  cases hr : rec.at_uri == k <;> simp [List.filter_cons, hr]

theorem countFI_congr (d db : DB) (k : String)
    (h : d.interactions = db.interactions) : countFI d k = countFI db k := by
  unfold countFI filterFI
  rw [h]

theorem postLikes_congr (d db : DB) (i : String) (h : d.posts = db.posts) :
    postLikes d i = postLikes db i := by
  unfold postLikes
  rw [h]

theorem postExists_congr (d db : DB) (i : String) (h : d.posts = db.posts) :
    postExists d i = postExists db i := by
  unfold postExists
  rw [h]

theorem filter_any_ne_nil {α : Type} (q : α → Bool) (m : List α)
    (h : m.any q = true) : m.filter q ≠ [] := by
  obtain ⟨a0, ha0, hq⟩ := List.any_eq_true.mp h
  intro hnil
  have hmem : a0 ∈ m.filter q := List.mem_filter.mpr ⟨ha0, hq⟩
  rw [hnil] at hmem
  exact absurd hmem (List.not_mem_nil a0)

theorem headCounter_unchanged {α : Type} (g : α → α) (f : α → Nat)
    (q : α → Bool) (m : List α)
    (hq : ∀ a, q (g a) = q a)
    (hsame : ∀ a, q a = true → f (g a) = f a) :
    headVal f ((m.map g).filter q) = headVal f (m.filter q) := by
  rw [filter_map_comm g _ hq, headVal_map]
  exact headVal_congr_on _ _ _ (fun a ha => hsame a (List.mem_filter.mp ha).2)

theorem headCounter_succ {α : Type} (g : α → α) (f : α → Nat)
    (q : α → Bool) (m : List α)
    (hq : ∀ a, q (g a) = q a)
    (hbump : ∀ a, q a = true → f (g a) = f a + 1)
    (hne : m.filter q ≠ []) :
    headVal f ((m.map g).filter q) = headVal f (m.filter q) + 1 := by
  rw [filter_map_comm g _ hq, headVal_map]
  rw [headVal_congr_on _ (fun a => f a + 1) _
    (fun a ha => hbump a (List.mem_filter.mp ha).2)]
  exact headVal_succ f _ hne

theorem postLikes_increment_self (db : DB) (i : String)
    (h : postExists db i = true) :
    postLikes (increment_post_likes db i) i = postLikes db i + 1 := by
  unfold postLikes
  apply headCounter_succ
  · intro p
    by_cases hid : p.id = i <;> simp [hid]
  · intro p hp
    have : p.id = i := eq_of_beq hp
    simp [this]
  · exact filter_any_ne_nil _ _ h

theorem postExists_increment (db : DB) (i j : String) :
    postExists (increment_post_likes db i) j = postExists db j := by
  unfold postExists increment_post_likes
  rw [List.any_map]
  have hfun : ((fun p : Post => p.id == j) ∘ (fun p : Post =>
      if p.id == i then { p with likes_count := p.likes_count + 1 } else p))
      = fun p : Post => p.id == j := by
    funext p
    by_cases hid : p.id = i <;> simp [hid]
  rw [hfun]

theorem increment_post_likes_interactions (db : DB) (i : String) :
    (increment_post_likes db i).interactions = db.interactions := rfl

theorem vIncr_le_wApplied (pc : RacePC) : vIncr pc ≤ wApplied pc := by
  cases pc <;> simp [vIncr, wApplied]

theorem raceInv_swap (pid k : String) (l0 : Nat) (s : RaceState)
    (h : RaceInv pid k l0 s) : RaceInv pid k l0 (raceSwap s) := by
  obtain ⟨h1, h2, h3, h4, h5, h6⟩ := h
  refine ⟨?_, h2, ?_, h4, h6, h5⟩
  · show countFI s.db k = wApplied s.p2 + wApplied s.p1
    rw [h1]; exact Nat.add_comm _ _
  · show postLikes s.db pid = l0 + vIncr s.p2 + vIncr s.p1
    rw [h3]; omega

theorem raceStepTrue_preserves (env : Env) (pid owner actor k : String)
    (l0 : Nat) (s : RaceState) (h : RaceInv pid k l0 s) :
    RaceInv pid k l0 (raceStep env pid owner actor k s true) := by
  obtain ⟨h1, h2, h3, h4, h5, h6⟩ := h
  show RaceInv pid k l0
    { db := (stepLike env pid owner actor k s.db s.p1).1
      p1 := (stepLike env pid owner actor k s.db s.p1).2, p2 := s.p2 }
  cases hp : s.p1 with
  | atCheck =>
    rw [hp] at h1 h3
    cases hf : findFI s.db k with
    | some x =>
      have hone := countFI_one_of_findFI_some s.db k x hf
      have hstep : stepLike env pid owner actor k s.db RacePC.atCheck =
          (s.db, RacePC.doneDropped) := by simp [stepLike, hf]
      rw [hstep]
      exact ⟨by simpa [wApplied] using h1, h2, by simpa [vIncr] using h3, h4,
        fun _ => hone, fun hq => h6 hq⟩
    | none =>
      have hstep : stepLike env pid owner actor k s.db RacePC.atCheck =
          (s.db, RacePC.atInsert) := by simp [stepLike, hf]
      rw [hstep]
      exact ⟨by simpa [wApplied] using h1, h2, by simpa [vIncr] using h3, h4,
        fun hq => absurd hq (by simp), fun hq => h6 hq⟩
  | atInsert =>
    rw [hp] at h1 h3
    cases hins : insertFI s.db
        { post_id := some pid, target_user_id := none
          interaction_type := "like", actor_did := actor
          at_uri := k, meta_text := none, meta_createdAt := none } with
    | none =>
      have hany := insertFI_none s.db _ hins
      have hone : countFI s.db k = 1 :=
        Nat.le_antisymm h2 (countFI_pos_of_any_true s.db k hany)
      have hstep : stepLike env pid owner actor k s.db RacePC.atInsert =
          (s.db, RacePC.doneDropped) := by simp [stepLike, hins]
      rw [hstep]
      exact ⟨by simpa [wApplied] using h1, h2, by simpa [vIncr] using h3, h4,
        fun _ => hone, fun hq => h6 hq⟩
    | some d =>
      obtain ⟨hd, hany⟩ := insertFI_some s.db _ d hins
      have hz : countFI s.db k = 0 := countFI_eq_zero_of_any_false s.db k hany
      have hcnt : countFI d k = countFI s.db k + 1 := by
        rw [hd, countFI_append]
        simp
      have hdposts : d.posts = s.db.posts := by rw [hd]
      have hstep : stepLike env pid owner actor k s.db RacePC.atInsert =
          (d, RacePC.atIncrement) := by simp [stepLike, hins]
      rw [hstep]
      refine ⟨?_, ?_, ?_, ?_, fun hq => absurd hq (by simp), ?_⟩
      · show countFI d k = wApplied RacePC.atIncrement + wApplied s.p2
        simp only [wApplied] at h1 ⊢
        omega
      · show countFI d k ≤ 1
        rw [hcnt, hz]
      · show postLikes d pid = l0 + vIncr RacePC.atIncrement + vIncr s.p2
        rw [postLikes_congr d s.db pid hdposts]
        simp only [vIncr] at h3 ⊢
        omega
      · show postExists d pid = true
        rw [postExists_congr d s.db pid hdposts]
        exact h4
      · intro hq
        have := h6 hq
        rw [hz] at this
        exact absurd this (by simp)
  | atIncrement =>
    rw [hp] at h1 h3
    have hstep : stepLike env pid owner actor k s.db RacePC.atIncrement =
        (increment_post_likes s.db pid, RacePC.atNotify) := rfl
    rw [hstep]
    have hcnt : countFI (increment_post_likes s.db pid) k = countFI s.db k :=
      countFI_congr _ _ k rfl
    refine ⟨?_, ?_, ?_, ?_, fun hq => absurd hq (by simp), ?_⟩
    · show countFI (increment_post_likes s.db pid) k =
        wApplied RacePC.atNotify + wApplied s.p2
      rw [hcnt]
      simp only [wApplied] at h1 ⊢
      omega
    · show countFI (increment_post_likes s.db pid) k ≤ 1
      rw [hcnt]
      exact h2
    · show postLikes (increment_post_likes s.db pid) pid =
        l0 + vIncr RacePC.atNotify + vIncr s.p2
      rw [postLikes_increment_self s.db pid h4]
      simp only [vIncr] at h3 ⊢
      omega
    · show postExists (increment_post_likes s.db pid) pid = true
      rw [postExists_increment]
      exact h4
    · intro hq
      show countFI (increment_post_likes s.db pid) k = 1
      rw [hcnt]
      exact h6 hq
  | atNotify =>
    rw [hp] at h1 h3
    have hstep : stepLike env pid owner actor k s.db RacePC.atNotify =
        (createExternalNotification env s.db owner actor "like" (some pid),
         RacePC.doneApplied) := rfl
    rw [hstep]
    have hcnt : countFI (createExternalNotification env s.db owner actor "like"
        (some pid)) k = countFI s.db k :=
      countFI_congr _ _ k (notif_interactions env s.db owner actor "like" (some pid))
    have hposts := notif_posts env s.db owner actor "like" (some pid)
    refine ⟨?_, ?_, ?_, ?_, fun hq => absurd hq (by simp), ?_⟩
    · show countFI _ k = wApplied RacePC.doneApplied + wApplied s.p2
      rw [hcnt]
      simp only [wApplied] at h1 ⊢
      omega
    · show countFI _ k ≤ 1
      rw [hcnt]
      exact h2
    · show postLikes _ pid = l0 + vIncr RacePC.doneApplied + vIncr s.p2
      rw [postLikes_congr _ _ pid hposts]
      simp only [vIncr] at h3 ⊢
      omega
    · show postExists _ pid = true
      rw [postExists_congr _ _ pid hposts]
      exact h4
    · intro hq
      show countFI _ k = 1
      rw [hcnt]
      exact h6 hq
  | doneApplied =>
    rw [hp] at h1 h3
    have hstep : stepLike env pid owner actor k s.db RacePC.doneApplied =
        (s.db, RacePC.doneApplied) := rfl
    rw [hstep]
    exact ⟨h1, h2, h3, h4, fun hq => absurd hq (by simp), fun hq => h6 hq⟩
  | doneDropped =>
    rw [hp] at h1 h3 h5
    have hstep : stepLike env pid owner actor k s.db RacePC.doneDropped =
        (s.db, RacePC.doneDropped) := rfl
    rw [hstep]
    exact ⟨h1, h2, h3, h4, fun _ => h5 rfl, fun hq => h6 hq⟩

theorem raceStep_preserves (env : Env) (pid owner actor k : String)
    (l0 : Nat) (s : RaceState) (who : Bool) (h : RaceInv pid k l0 s) :
    RaceInv pid k l0 (raceStep env pid owner actor k s who) := by
  cases who with
  | true => exact raceStepTrue_preserves env pid owner actor k l0 s h
  | false =>
    have hswap : raceStep env pid owner actor k s false =
        raceSwap (raceStep env pid owner actor k (raceSwap s) true) := rfl
    rw [hswap]
    exact raceInv_swap pid k l0 _
      (raceStepTrue_preserves env pid owner actor k l0 (raceSwap s)
        (raceInv_swap pid k l0 s h))

theorem raceRun_preserves (env : Env) (pid owner actor k : String)
    (l0 : Nat) (sched : List Bool) :
    ∀ s : RaceState, RaceInv pid k l0 s →
      RaceInv pid k l0 (raceRun env pid owner actor k s sched) := by
  induction sched with
  | nil => intro s h; exact h
  | cons who t ih =>
    intro s h
    exact ih _ (raceStep_preserves env pid owner actor k l0 s who h)

/-- C2: the existence check and the insert-plus-increment are effectively
atomic per idempotency key.  For any interleaving of two processing paths
running the create branch on the same key — both may pass the existence
check — the storage-layer uniqueness constraint on `at_uri` rejects the
second insert, so at most one interaction row under the key ever exists and
the counter gains at most one; once both paths have finished, exactly one row
exists and the counter has gained exactly one. -/
theorem c2_unique_constraint_serializes (env : Env) (pid owner actor k : String)
    (db0 : DB) (sched : List Bool)
    (h0 : countFI db0 k = 0) (hex : postExists db0 pid = true) :
    countFI (raceRun env pid owner actor k
        { db := db0, p1 := .atCheck, p2 := .atCheck } sched).db k ≤ 1
    ∧ postLikes (raceRun env pid owner actor k
        { db := db0, p1 := .atCheck, p2 := .atCheck } sched).db pid ≤
        postLikes db0 pid + 1
    ∧ ((raceRun env pid owner actor k
          { db := db0, p1 := .atCheck, p2 := .atCheck } sched).p1.isDone = true →
       (raceRun env pid owner actor k
          { db := db0, p1 := .atCheck, p2 := .atCheck } sched).p2.isDone = true →
       countFI (raceRun env pid owner actor k
          { db := db0, p1 := .atCheck, p2 := .atCheck } sched).db k = 1
       ∧ postLikes (raceRun env pid owner actor k
          { db := db0, p1 := .atCheck, p2 := .atCheck } sched).db pid =
          postLikes db0 pid + 1) := by
  have hinit : RaceInv pid k (postLikes db0 pid)
      { db := db0, p1 := .atCheck, p2 := .atCheck } := by
    refine ⟨by simpa [wApplied] using h0, by rw [h0]; exact Nat.zero_le 1,
      by simp [vIncr], hex, ?_, ?_⟩
    · intro hq; exact absurd hq (by simp)
    · intro hq; exact absurd hq (by simp)
  have hfin := raceRun_preserves env pid owner actor k (postLikes db0 pid) sched _ hinit
  obtain ⟨h1, h2, h3, _, h5, h6⟩ := hfin
  refine ⟨h2, ?_, ?_⟩
  · rw [h3]
    have hv1 := vIncr_le_wApplied (raceRun env pid owner actor k
        { db := db0, p1 := .atCheck, p2 := .atCheck } sched).p1
    have hv2 := vIncr_le_wApplied (raceRun env pid owner actor k
        { db := db0, p1 := .atCheck, p2 := .atCheck } sched).p2
    omega
  · intro hd1 hd2
    cases hq1 : (raceRun env pid owner actor k
        { db := db0, p1 := .atCheck, p2 := .atCheck } sched).p1 with
    | atCheck => rw [hq1] at hd1; exact absurd hd1 (by simp [RacePC.isDone])
    | atInsert => rw [hq1] at hd1; exact absurd hd1 (by simp [RacePC.isDone])
    | atIncrement => rw [hq1] at hd1; exact absurd hd1 (by simp [RacePC.isDone])
    | atNotify => rw [hq1] at hd1; exact absurd hd1 (by simp [RacePC.isDone])
    | doneApplied =>
      cases hq2 : (raceRun env pid owner actor k
          { db := db0, p1 := .atCheck, p2 := .atCheck } sched).p2 with
      | atCheck => rw [hq2] at hd2; exact absurd hd2 (by simp [RacePC.isDone])
      | atInsert => rw [hq2] at hd2; exact absurd hd2 (by simp [RacePC.isDone])
      | atIncrement => rw [hq2] at hd2; exact absurd hd2 (by simp [RacePC.isDone])
      | atNotify => rw [hq2] at hd2; exact absurd hd2 (by simp [RacePC.isDone])
      | doneApplied =>
        rw [hq1, hq2] at h1
        simp [wApplied] at h1
        omega
      | doneDropped =>
        rw [hq1, hq2] at h1 h3
        simp [wApplied] at h1
        simp [vIncr] at h3
        exact ⟨h1, h3⟩
    | doneDropped =>
      have hone := h5 hq1
      cases hq2 : (raceRun env pid owner actor k
          { db := db0, p1 := .atCheck, p2 := .atCheck } sched).p2 with
      | atCheck => rw [hq2] at hd2; exact absurd hd2 (by simp [RacePC.isDone])
      | atInsert => rw [hq2] at hd2; exact absurd hd2 (by simp [RacePC.isDone])
      | atIncrement => rw [hq2] at hd2; exact absurd hd2 (by simp [RacePC.isDone])
      | atNotify => rw [hq2] at hd2; exact absurd hd2 (by simp [RacePC.isDone])
      | doneApplied =>
        rw [hq1, hq2] at h3
        simp [vIncr] at h3
        exact ⟨hone, h3⟩
      | doneDropped =>
        rw [hq1, hq2] at h1
        simp [wApplied] at h1
        rw [h1] at hone
        exact absurd hone (by simp)

theorem c2_witness :
    (countFI c3db c2key = 0 ∧ postExists c3db "p1" = true)
    ∧ (countFI (raceRun envNoFetch "p1" "u1" "did:plc:bob" c2key
          { db := c3db, p1 := .atCheck, p2 := .atCheck } c2sched).db c2key ≤ 1
       ∧ postLikes (raceRun envNoFetch "p1" "u1" "did:plc:bob" c2key
          { db := c3db, p1 := .atCheck, p2 := .atCheck } c2sched).db "p1" ≤
          postLikes c3db "p1" + 1
       ∧ ((raceRun envNoFetch "p1" "u1" "did:plc:bob" c2key
            { db := c3db, p1 := .atCheck, p2 := .atCheck } c2sched).p1.isDone = true →
          (raceRun envNoFetch "p1" "u1" "did:plc:bob" c2key
            { db := c3db, p1 := .atCheck, p2 := .atCheck } c2sched).p2.isDone = true →
          countFI (raceRun envNoFetch "p1" "u1" "did:plc:bob" c2key
            { db := c3db, p1 := .atCheck, p2 := .atCheck } c2sched).db c2key = 1
          ∧ postLikes (raceRun envNoFetch "p1" "u1" "did:plc:bob" c2key
            { db := c3db, p1 := .atCheck, p2 := .atCheck } c2sched).db "p1" =
            postLikes c3db "p1" + 1))
    ∧ (raceRun envNoFetch "p1" "u1" "did:plc:bob" c2key
        { db := c3db, p1 := .atCheck, p2 := .atCheck } c2sched).p1.isDone = true
    ∧ (raceRun envNoFetch "p1" "u1" "did:plc:bob" c2key
        { db := c3db, p1 := .atCheck, p2 := .atCheck } c2sched).p2.isDone = true :=
  ⟨⟨by decide, by decide⟩,
   c2_unique_constraint_serializes envNoFetch "p1" "u1" "did:plc:bob" c2key c3db
     c2sched (by decide) (by decide),
   by decide, by decide⟩

theorem some_beq_some {α : Type} [BEq α] (a b : α) :
    (some a == some b) = (a == b) := rfl

theorem fis_congr (d db : DB) (h : d.interactions = db.interactions) (j : String) :
    likeFIs d j = likeFIs db j
    ∧ repostFIs d j = repostFIs db j
    ∧ replyFIs d j = replyFIs db j
    ∧ quoteFIs d j = quoteFIs db j
    ∧ followFIs d j = followFIs db j := by
  unfold likeFIs repostFIs replyFIs quoteFIs followFIs
  rw [h]
  exact ⟨rfl, rfl, rfl, rfl, rfl⟩

theorem fis_append (d db : DB) (rec : FIRecord)
    (h : d.interactions = db.interactions ++ [rec]) (j : String) :
    likeFIs d j = likeFIs db j +
      (if rec.interaction_type == "like" && rec.post_id == some j then 1 else 0)
    ∧ repostFIs d j = repostFIs db j +
      (if rec.interaction_type == "repost" && rec.post_id == some j then 1 else 0)
    ∧ replyFIs d j = replyFIs db j +
      (if rec.interaction_type == "reply" && rec.post_id == some j then 1 else 0)
    ∧ quoteFIs d j = quoteFIs db j +
      (if rec.interaction_type == "quote" && rec.post_id == some j then 1 else 0)
    ∧ followFIs d j = followFIs db j +
      (if rec.interaction_type == "follow" && rec.target_user_id == some j then 1 else 0) := by
  unfold likeFIs repostFIs replyFIs quoteFIs followFIs
  rw [h]
  exact ⟨length_filter_append_one _ _ _, length_filter_append_one _ _ _,
    length_filter_append_one _ _ _, length_filter_append_one _ _ _,
    length_filter_append_one _ _ _⟩

theorem postReposts_increment_self (db : DB) (i : String)
    (h : postExists db i = true) :
    postReposts (increment_post_reposts db i) i = postReposts db i + 1 := by
  unfold postReposts
  apply headCounter_succ
  · intro p
    by_cases hid : p.id = i <;> simp [hid]
  · intro p hp
    have : p.id = i := eq_of_beq hp
    simp [this]
  · exact filter_any_ne_nil _ _ h

theorem postReplies_increment_self (db : DB) (i : String)
    (h : postExists db i = true) :
    postReplies (increment_post_replies db i) i = postReplies db i + 1 := by
  unfold postReplies
  apply headCounter_succ
  · intro p
    by_cases hid : p.id = i <;> simp [hid]
  · intro p hp
    have : p.id = i := eq_of_beq hp
    simp [this]
  · exact filter_any_ne_nil _ _ h

theorem postQuotes_increment_self (db : DB) (i : String)
    (h : postExists db i = true) :
    postQuotes (increment_post_quotes db i) i = postQuotes db i + 1 := by
  unfold postQuotes
  apply headCounter_succ
  · intro p
    by_cases hid : p.id = i <;> simp [hid]
  · intro p hp
    have : p.id = i := eq_of_beq hp
    simp [this]
  · exact filter_any_ne_nil _ _ h

theorem profileFollowers_increment_self (db : DB) (i : String)
    (h : db.profiles.any (fun q => q.id == i) = true) :
    profileFollowers (increment_profile_followers db i) i =
      profileFollowers db i + 1 := by
  unfold profileFollowers
  apply headCounter_succ
  · intro p
    by_cases hid : p.id = i <;> simp [hid]
  · intro p hp
    have : p.id = i := eq_of_beq hp
    simp [this]
  · exact filter_any_ne_nil _ _ h

theorem counters_increment_post_likes (db : DB) (i j : String) :
    (j ≠ i → postLikes (increment_post_likes db i) j = postLikes db j)
    ∧ postReposts (increment_post_likes db i) j = postReposts db j
    ∧ postReplies (increment_post_likes db i) j = postReplies db j
    ∧ postQuotes (increment_post_likes db i) j = postQuotes db j
    ∧ profileFollowers (increment_post_likes db i) j = profileFollowers db j := by
  refine ⟨?_, ?_, ?_, ?_, rfl⟩
  · intro hne
    unfold postLikes
    apply headCounter_unchanged
    · intro p; by_cases hid : p.id = i <;> simp [hid]
    · intro p hp
      have hpj : p.id = j := eq_of_beq hp
      have hfalse : (p.id == i) = false := by
        apply Bool.eq_false_iff.mpr
        intro hb
        exact hne (by rw [← hpj, eq_of_beq hb])
      simp [hfalse]
  · unfold postReposts
    apply headCounter_unchanged
    · intro p; by_cases hid : p.id = i <;> simp [hid]
    · intro p _; by_cases hid : p.id = i <;> simp [hid]
  · unfold postReplies
    apply headCounter_unchanged
    · intro p; by_cases hid : p.id = i <;> simp [hid]
    · intro p _; by_cases hid : p.id = i <;> simp [hid]
  · unfold postQuotes
    apply headCounter_unchanged
    · intro p; by_cases hid : p.id = i <;> simp [hid]
    · intro p _; by_cases hid : p.id = i <;> simp [hid]

theorem counters_increment_post_reposts (db : DB) (i j : String) :
    (j ≠ i → postReposts (increment_post_reposts db i) j = postReposts db j)
    ∧ postLikes (increment_post_reposts db i) j = postLikes db j
    ∧ postReplies (increment_post_reposts db i) j = postReplies db j
    ∧ postQuotes (increment_post_reposts db i) j = postQuotes db j
    ∧ profileFollowers (increment_post_reposts db i) j = profileFollowers db j := by
  refine ⟨?_, ?_, ?_, ?_, rfl⟩
  · intro hne
    unfold postReposts
    apply headCounter_unchanged
    · intro p; by_cases hid : p.id = i <;> simp [hid]
    · intro p hp
      have hpj : p.id = j := eq_of_beq hp
      have hfalse : (p.id == i) = false := by
        apply Bool.eq_false_iff.mpr
        intro hb
        exact hne (by rw [← hpj, eq_of_beq hb])
      simp [hfalse]
  · unfold postLikes
    apply headCounter_unchanged
    · intro p; by_cases hid : p.id = i <;> simp [hid]
    · intro p _; by_cases hid : p.id = i <;> simp [hid]
  · unfold postReplies
    apply headCounter_unchanged
    · intro p; by_cases hid : p.id = i <;> simp [hid]
    · intro p _; by_cases hid : p.id = i <;> simp [hid]
  · unfold postQuotes
    apply headCounter_unchanged
    · intro p; by_cases hid : p.id = i <;> simp [hid]
    · intro p _; by_cases hid : p.id = i <;> simp [hid]

theorem counters_increment_post_replies (db : DB) (i j : String) :
    (j ≠ i → postReplies (increment_post_replies db i) j = postReplies db j)
    ∧ postLikes (increment_post_replies db i) j = postLikes db j
    ∧ postReposts (increment_post_replies db i) j = postReposts db j
    ∧ postQuotes (increment_post_replies db i) j = postQuotes db j
    ∧ profileFollowers (increment_post_replies db i) j = profileFollowers db j := by
  refine ⟨?_, ?_, ?_, ?_, rfl⟩
  · intro hne
    unfold postReplies
    apply headCounter_unchanged
    · intro p; by_cases hid : p.id = i <;> simp [hid]
    · intro p hp
      have hpj : p.id = j := eq_of_beq hp
      have hfalse : (p.id == i) = false := by
        apply Bool.eq_false_iff.mpr
        intro hb
        exact hne (by rw [← hpj, eq_of_beq hb])
      simp [hfalse]
  · unfold postLikes
    apply headCounter_unchanged
    · intro p; by_cases hid : p.id = i <;> simp [hid]
    · intro p _; by_cases hid : p.id = i <;> simp [hid]
  · unfold postReposts
    apply headCounter_unchanged
    · intro p; by_cases hid : p.id = i <;> simp [hid]
    · intro p _; by_cases hid : p.id = i <;> simp [hid]
  · unfold postQuotes
    apply headCounter_unchanged
    · intro p; by_cases hid : p.id = i <;> simp [hid]
    · intro p _; by_cases hid : p.id = i <;> simp [hid]

theorem counters_increment_post_quotes (db : DB) (i j : String) :
    (j ≠ i → postQuotes (increment_post_quotes db i) j = postQuotes db j)
    ∧ postLikes (increment_post_quotes db i) j = postLikes db j
    ∧ postReposts (increment_post_quotes db i) j = postReposts db j
    ∧ postReplies (increment_post_quotes db i) j = postReplies db j
    ∧ profileFollowers (increment_post_quotes db i) j = profileFollowers db j := by
  refine ⟨?_, ?_, ?_, ?_, rfl⟩
  · intro hne
    unfold postQuotes
    apply headCounter_unchanged
    · intro p; by_cases hid : p.id = i <;> simp [hid]
    · intro p hp
      have hpj : p.id = j := eq_of_beq hp
      have hfalse : (p.id == i) = false := by
        apply Bool.eq_false_iff.mpr
        intro hb
        exact hne (by rw [← hpj, eq_of_beq hb])
      simp [hfalse]
  · unfold postLikes
    apply headCounter_unchanged
    · intro p; by_cases hid : p.id = i <;> simp [hid]
    · intro p _; by_cases hid : p.id = i <;> simp [hid]
  · unfold postReposts
    apply headCounter_unchanged
    · intro p; by_cases hid : p.id = i <;> simp [hid]
    · intro p _; by_cases hid : p.id = i <;> simp [hid]
  · unfold postReplies
    apply headCounter_unchanged
    · intro p; by_cases hid : p.id = i <;> simp [hid]
    · intro p _; by_cases hid : p.id = i <;> simp [hid]

theorem counters_increment_profile_followers (db : DB) (i j : String) :
    (j ≠ i → profileFollowers (increment_profile_followers db i) j =
      profileFollowers db j)
    ∧ postLikes (increment_profile_followers db i) j = postLikes db j
    ∧ postReposts (increment_profile_followers db i) j = postReposts db j
    ∧ postReplies (increment_profile_followers db i) j = postReplies db j
    ∧ postQuotes (increment_profile_followers db i) j = postQuotes db j := by
  refine ⟨?_, rfl, rfl, rfl, rfl⟩
  · intro hne
    unfold profileFollowers
    apply headCounter_unchanged
    · intro p; by_cases hid : p.id = i <;> simp [hid]
    · intro p hp
      have hpj : p.id = j := eq_of_beq hp
      have hfalse : (p.id == i) = false := by
        apply Bool.eq_false_iff.mpr
        intro hb
        exact hne (by rw [← hpj, eq_of_beq hb])
      simp [hfalse]

theorem countersPaired_refl (db : DB) : CountersPaired db db :=
  fun _ => ⟨rfl, rfl, rfl, rfl, rfl⟩

theorem countersPaired_trans (db1 db2 db3 : DB)
    (h12 : CountersPaired db1 db2) (h23 : CountersPaired db2 db3) :
    CountersPaired db1 db3 := by
  intro i
  obtain ⟨a1, a2, a3, a4, a5⟩ := h12 i
  obtain ⟨b1, b2, b3, b4, b5⟩ := h23 i
  exact ⟨by omega, by omega, by omega, by omega, by omega⟩

theorem insertFI_eq_none_of_any_true (db : DB) (rec : FIRecord)
    (h : db.interactions.any (fun f => f.at_uri == rec.at_uri) = true) :
    insertFI db rec = none := by
  unfold insertFI
  simp [h]

theorem any_true_of_countFI_pos (db : DB) (k : String)
    (h : 1 ≤ countFI db k) :
    db.interactions.any (fun f => f.at_uri == k) = true := by
  cases hany : db.interactions.any (fun f => f.at_uri == k) with
  | true => rfl
  | false =>
    have := countFI_eq_zero_of_any_false db k hany
    omega

theorem countFI_le_one_append (d db : DB) (rec : FIRecord) (k0 : String)
    (hd : d.interactions = db.interactions ++ [rec])
    (hany : db.interactions.any (fun f => f.at_uri == rec.at_uri) = false)
    (h : countFI db k0 ≤ 1) : countFI d k0 ≤ 1 := by
  have hcnt : countFI d k0 = countFI db k0 + (if rec.at_uri == k0 then 1 else 0) := by
    unfold countFI filterFI
    rw [hd]
    exact length_filter_append_one _ _ _
  cases hbeq : rec.at_uri == k0 with
  | false => rw [hcnt, hbeq]; simpa using h
  | true =>
    have hk : rec.at_uri = k0 := eq_of_beq hbeq
    have hz : countFI db k0 = 0 := hk ▸ countFI_eq_zero_of_any_false db rec.at_uri hany
    rw [hcnt, hbeq, hz]
    simp

theorem counters_congr (d db : DB) (hp : d.posts = db.posts)
    (hpr : d.profiles = db.profiles) (j : String) :
    postLikes d j = postLikes db j
    ∧ postReposts d j = postReposts db j
    ∧ postReplies d j = postReplies db j
    ∧ postQuotes d j = postQuotes db j
    ∧ profileFollowers d j = profileFollowers db j := by
  unfold postLikes postReposts postReplies postQuotes profileFollowers
  rw [hp, hpr]
  exact ⟨rfl, rfl, rfl, rfl, rfl⟩

theorem handleLike_create_noop (env : Env) (db : DB) (a : String)
    (r : Option RecordObj) (k : String)
    (h : 1 ≤ countFI db ("at://" ++ a ++ "/app.bsky.feed.like/" ++ k)) :
    handleLikeEvent env db a "create" r k = db := by
  unfold handleLikeEvent
  cases hsub : r.bind (fun x => x.subject_uri) with
  | none => rfl
  | some u =>
    cases hinc : strIncludes u CANNECT_DOMAIN with
    | false => simp [hinc]
    | true =>
      cases hfp : findPost db u with
      | none => simp [hinc, hfp]
      | some p =>
        cases hff : findFI db ("at://" ++ a ++ "/app.bsky.feed.like/" ++ k) with
        | some x => simp [hinc, hfp, hff]
        | none =>
          have hins : insertFI db
              { post_id := some p.id, target_user_id := none
                interaction_type := "like", actor_did := a
                at_uri := "at://" ++ a ++ "/app.bsky.feed.like/" ++ k
                meta_text := none, meta_createdAt := none } = none :=
            insertFI_eq_none_of_any_true db _ (any_true_of_countFI_pos db _ h)
          simp [hinc, hfp, hff, hins]

theorem handleLike_create_spec (env : Env) (db : DB) (a : String)
    (r : Option RecordObj) (k : String) :
    handleLikeEvent env db a "create" r k = db
    ∨ ∃ (p : Post) (dIns : DB),
        p ∈ db.posts
        ∧ insertFI db
            { post_id := some p.id, target_user_id := none
              interaction_type := "like", actor_did := a
              at_uri := "at://" ++ a ++ "/app.bsky.feed.like/" ++ k
              meta_text := none, meta_createdAt := none } = some dIns
        ∧ handleLikeEvent env db a "create" r k =
            createExternalNotification env (increment_post_likes dIns p.id)
              p.user_id a "like" (some p.id) := by
  unfold handleLikeEvent
  cases hsub : r.bind (fun x => x.subject_uri) with
  | none => exact Or.inl rfl
  | some u =>
    cases hinc : strIncludes u CANNECT_DOMAIN with
    | false => left; simp [hinc]
    | true =>
      cases hfp : findPost db u with
      | none => left; simp [hinc, hfp]
      | some p =>
        cases hff : findFI db ("at://" ++ a ++ "/app.bsky.feed.like/" ++ k) with
        | some x => left; simp [hinc, hfp, hff]
        | none =>
          cases hins : insertFI db
              { post_id := some p.id, target_user_id := none
                interaction_type := "like", actor_did := a
                at_uri := "at://" ++ a ++ "/app.bsky.feed.like/" ++ k
                meta_text := none, meta_createdAt := none } with
          | none => left; simp [hinc, hfp, hff, hins]
          | some dIns =>
            right
            refine ⟨p, dIns, findPost_mem db u p hfp, hins, ?_⟩
            simp [hinc, hfp, hff, hins]

theorem handleLike_create_dichotomy (env : Env) (db : DB) (a : String)
    (r : Option RecordObj) (k : String) :
    handleLikeEvent env db a "create" r k = db
    ∨ countFI (handleLikeEvent env db a "create" r k)
        ("at://" ++ a ++ "/app.bsky.feed.like/" ++ k) =
      countFI db ("at://" ++ a ++ "/app.bsky.feed.like/" ++ k) + 1 := by
  rcases handleLike_create_spec env db a r k with h | ⟨p, dIns, _, hins, hres⟩
  · exact Or.inl h
  · right
    obtain ⟨hd, _⟩ := insertFI_some db _ dIns hins
    rw [hres]
    rw [countFI_congr _ (increment_post_likes dIns p.id) _
      (notif_interactions env _ p.user_id a "like" (some p.id))]
    rw [countFI_congr (increment_post_likes dIns p.id) dIns _ rfl]
    have : countFI dIns ("at://" ++ a ++ "/app.bsky.feed.like/" ++ k) =
        countFI db ("at://" ++ a ++ "/app.bsky.feed.like/" ++ k) +
        (if ("at://" ++ a ++ "/app.bsky.feed.like/" ++ k) ==
            ("at://" ++ a ++ "/app.bsky.feed.like/" ++ k) then 1 else 0) := by
      unfold countFI filterFI
      rw [hd]
      exact length_filter_append_one _ _ _
    simpa using this

theorem handleLike_create_idem (env : Env) (db : DB) (a : String)
    (r : Option RecordObj) (k : String) :
    handleLikeEvent env (handleLikeEvent env db a "create" r k) a "create" r k
      = handleLikeEvent env db a "create" r k := by
  rcases handleLike_create_dichotomy env db a r k with h | h
  · rw [h]; exact h
  · exact handleLike_create_noop env _ a r k (by omega)

theorem handleLike_create_countLe (env : Env) (db : DB) (a : String)
    (r : Option RecordObj) (k k0 : String) (h : countFI db k0 ≤ 1) :
    countFI (handleLikeEvent env db a "create" r k) k0 ≤ 1 := by
  rcases handleLike_create_spec env db a r k with hres | ⟨p, dIns, _, hins, hres⟩
  · rw [hres]; exact h
  · rw [hres]
    obtain ⟨hd, hany⟩ := insertFI_some db _ dIns hins
    rw [countFI_congr _ (increment_post_likes dIns p.id) _
      (notif_interactions env _ p.user_id a "like" (some p.id))]
    rw [countFI_congr (increment_post_likes dIns p.id) dIns _ rfl]
    exact countFI_le_one_append dIns db _ k0 (by rw [hd]) hany h

theorem handleLike_create_paired (env : Env) (db : DB) (a : String)
    (r : Option RecordObj) (k : String) :
    CountersPaired db (handleLikeEvent env db a "create" r k) := by
  rcases handleLike_create_spec env db a r k with hres | ⟨p, dIns, hmem, hins, hres⟩
  · rw [hres]; exact countersPaired_refl db
  · rw [hres]
    obtain ⟨hd, _⟩ := insertFI_some db _ dIns hins
    have hdposts : dIns.posts = db.posts := by rw [hd]
    have hdprof : dIns.profiles = db.profiles := by rw [hd]
    have hex : postExists dIns p.id = true := by
      rw [postExists_congr dIns db p.id hdposts]
      exact postExists_of_mem db p hmem
    intro j
    have hNc := counters_congr
      (createExternalNotification env (increment_post_likes dIns p.id)
        p.user_id a "like" (some p.id))
      (increment_post_likes dIns p.id)
      (notif_posts env _ p.user_id a "like" (some p.id))
      (notif_profiles env _ p.user_id a "like" (some p.id)) j
    have hic := counters_increment_post_likes dIns p.id j
    have hdc := counters_congr dIns db hdposts hdprof j
    have hNf := fis_congr
      (createExternalNotification env (increment_post_likes dIns p.id)
        p.user_id a "like" (some p.id))
      (increment_post_likes dIns p.id)
      (notif_interactions env _ p.user_id a "like" (some p.id)) j
    have hif := fis_congr (increment_post_likes dIns p.id) dIns rfl j
    have hdf := fis_append dIns db _ (by rw [hd]) j
    simp only [some_beq_some] at hdf
    have hLR : (("like" : String) == "repost") = false := by decide
    have hLRe : (("like" : String) == "reply") = false := by decide
    have hLQ : (("like" : String) == "quote") = false := by decide
    have hLF : (("like" : String) == "follow") = false := by decide
    obtain ⟨i1, i2, i3, i4, i5⟩ := hic
    obtain ⟨n1, n2, n3, n4, n5⟩ := hNc
    obtain ⟨d1, d2, d3, d4, d5⟩ := hdc
    obtain ⟨f1, f2, f3, f4, f5⟩ := hNf
    obtain ⟨g1, g2, g3, g4, g5⟩ := hif
    obtain ⟨e1, e2, e3, e4, e5⟩ := hdf
    by_cases hj : j = p.id
    · have hbj : (p.id == j) = true := by rw [hj]; exact beq_self_eq_true p.id
      have hself : postLikes (increment_post_likes dIns p.id) j =
          postLikes dIns j + 1 := by
        rw [hj]; exact postLikes_increment_self dIns p.id hex
      simp [hLR, hLRe, hLQ, hLF, hbj] at e1 e2 e3 e4 e5
      refine ⟨?_, ?_, ?_, ?_, ?_⟩ <;> omega
    · have hbj : (p.id == j) = false := by
        apply Bool.eq_false_iff.mpr
        intro hb
        exact hj (eq_of_beq hb).symm
      have hoth := i1 hj
      simp [hLR, hLRe, hLQ, hLF, hbj] at e1 e2 e3 e4 e5
      refine ⟨?_, ?_, ?_, ?_, ?_⟩ <;> omega

theorem handleRepost_create_noop (env : Env) (db : DB) (a : String)
    (r : Option RecordObj) (k : String)
    (h : 1 ≤ countFI db ("at://" ++ a ++ "/app.bsky.feed.repost/" ++ k)) :
    handleRepostEvent env db a "create" r k = db := by
  unfold handleRepostEvent
  cases hsub : r.bind (fun x => x.subject_uri) with
  | none => rfl
  | some u =>
    cases hinc : strIncludes u CANNECT_DOMAIN with
    | false => simp [hinc]
    | true =>
      cases hfp : findPost db u with
      | none => simp [hinc, hfp]
      | some p =>
        cases hff : findFI db ("at://" ++ a ++ "/app.bsky.feed.repost/" ++ k) with
        | some x => simp [hinc, hfp, hff]
        | none =>
          have hins : insertFI db
              { post_id := some p.id, target_user_id := none
                interaction_type := "repost", actor_did := a
                at_uri := "at://" ++ a ++ "/app.bsky.feed.repost/" ++ k
                meta_text := none, meta_createdAt := none } = none :=
            insertFI_eq_none_of_any_true db _ (any_true_of_countFI_pos db _ h)
          simp [hinc, hfp, hff, hins]

theorem handleRepost_create_spec (env : Env) (db : DB) (a : String)
    (r : Option RecordObj) (k : String) :
    handleRepostEvent env db a "create" r k = db
    ∨ ∃ (p : Post) (dIns : DB),
        p ∈ db.posts
        ∧ insertFI db
            { post_id := some p.id, target_user_id := none
              interaction_type := "repost", actor_did := a
              at_uri := "at://" ++ a ++ "/app.bsky.feed.repost/" ++ k
              meta_text := none, meta_createdAt := none } = some dIns
        ∧ handleRepostEvent env db a "create" r k =
            createExternalNotification env (increment_post_reposts dIns p.id)
              p.user_id a "repost" (some p.id) := by
  unfold handleRepostEvent
  cases hsub : r.bind (fun x => x.subject_uri) with
  | none => exact Or.inl rfl
  | some u =>
    cases hinc : strIncludes u CANNECT_DOMAIN with
    | false => left; simp [hinc]
    | true =>
      cases hfp : findPost db u with
      | none => left; simp [hinc, hfp]
      | some p =>
        cases hff : findFI db ("at://" ++ a ++ "/app.bsky.feed.repost/" ++ k) with
        | some x => left; simp [hinc, hfp, hff]
        | none =>
          cases hins : insertFI db
              { post_id := some p.id, target_user_id := none
                interaction_type := "repost", actor_did := a
                at_uri := "at://" ++ a ++ "/app.bsky.feed.repost/" ++ k
                meta_text := none, meta_createdAt := none } with
          | none => left; simp [hinc, hfp, hff, hins]
          | some dIns =>
            right
            refine ⟨p, dIns, findPost_mem db u p hfp, hins, ?_⟩
            simp [hinc, hfp, hff, hins]

theorem handleRepost_create_dichotomy (env : Env) (db : DB) (a : String)
    (r : Option RecordObj) (k : String) :
    handleRepostEvent env db a "create" r k = db
    ∨ countFI (handleRepostEvent env db a "create" r k)
        ("at://" ++ a ++ "/app.bsky.feed.repost/" ++ k) =
      countFI db ("at://" ++ a ++ "/app.bsky.feed.repost/" ++ k) + 1 := by
  rcases handleRepost_create_spec env db a r k with h | ⟨p, dIns, _, hins, hres⟩
  · exact Or.inl h
  · right
    obtain ⟨hd, _⟩ := insertFI_some db _ dIns hins
    rw [hres]
    rw [countFI_congr _ (increment_post_reposts dIns p.id) _
      (notif_interactions env _ p.user_id a "repost" (some p.id))]
    rw [countFI_congr (increment_post_reposts dIns p.id) dIns _ rfl]
    have : countFI dIns ("at://" ++ a ++ "/app.bsky.feed.repost/" ++ k) =
        countFI db ("at://" ++ a ++ "/app.bsky.feed.repost/" ++ k) +
        (if ("at://" ++ a ++ "/app.bsky.feed.repost/" ++ k) ==
            ("at://" ++ a ++ "/app.bsky.feed.repost/" ++ k) then 1 else 0) := by
      unfold countFI filterFI
      rw [hd]
      exact length_filter_append_one _ _ _
    simpa using this

theorem handleRepost_create_idem (env : Env) (db : DB) (a : String)
    (r : Option RecordObj) (k : String) :
    handleRepostEvent env (handleRepostEvent env db a "create" r k) a "create" r k
      = handleRepostEvent env db a "create" r k := by
  rcases handleRepost_create_dichotomy env db a r k with h | h
  · rw [h]; exact h
  · exact handleRepost_create_noop env _ a r k (by omega)

theorem handleRepost_create_countLe (env : Env) (db : DB) (a : String)
    (r : Option RecordObj) (k k0 : String) (h : countFI db k0 ≤ 1) :
    countFI (handleRepostEvent env db a "create" r k) k0 ≤ 1 := by
  rcases handleRepost_create_spec env db a r k with hres | ⟨p, dIns, _, hins, hres⟩
  · rw [hres]; exact h
  · rw [hres]
    obtain ⟨hd, hany⟩ := insertFI_some db _ dIns hins
    rw [countFI_congr _ (increment_post_reposts dIns p.id) _
      (notif_interactions env _ p.user_id a "repost" (some p.id))]
    rw [countFI_congr (increment_post_reposts dIns p.id) dIns _ rfl]
    exact countFI_le_one_append dIns db _ k0 (by rw [hd]) hany h

theorem handleRepost_create_paired (env : Env) (db : DB) (a : String)
    (r : Option RecordObj) (k : String) :
    CountersPaired db (handleRepostEvent env db a "create" r k) := by
  rcases handleRepost_create_spec env db a r k with hres | ⟨p, dIns, hmem, hins, hres⟩
  · rw [hres]; exact countersPaired_refl db
  · rw [hres]
    obtain ⟨hd, _⟩ := insertFI_some db _ dIns hins
    have hdposts : dIns.posts = db.posts := by rw [hd]
    have hdprof : dIns.profiles = db.profiles := by rw [hd]
    have hex : postExists dIns p.id = true := by
      rw [postExists_congr dIns db p.id hdposts]
      exact postExists_of_mem db p hmem
    intro j
    have hNc := counters_congr
      (createExternalNotification env (increment_post_reposts dIns p.id)
        p.user_id a "repost" (some p.id))
      (increment_post_reposts dIns p.id)
      (notif_posts env _ p.user_id a "repost" (some p.id))
      (notif_profiles env _ p.user_id a "repost" (some p.id)) j
    have hic := counters_increment_post_reposts dIns p.id j
    have hdc := counters_congr dIns db hdposts hdprof j
    have hNf := fis_congr
      (createExternalNotification env (increment_post_reposts dIns p.id)
        p.user_id a "repost" (some p.id))
      (increment_post_reposts dIns p.id)
      (notif_interactions env _ p.user_id a "repost" (some p.id)) j
    have hif := fis_congr (increment_post_reposts dIns p.id) dIns rfl j
    have hdf := fis_append dIns db _ (by rw [hd]) j
    simp only [some_beq_some] at hdf
    have hRL : (("repost" : String) == "like") = false := by decide
    have hRRe : (("repost" : String) == "reply") = false := by decide
    have hRQ : (("repost" : String) == "quote") = false := by decide
    have hRF : (("repost" : String) == "follow") = false := by decide
    obtain ⟨i1, i2, i3, i4, i5⟩ := hic
    obtain ⟨n1, n2, n3, n4, n5⟩ := hNc
    obtain ⟨d1, d2, d3, d4, d5⟩ := hdc
    obtain ⟨f1, f2, f3, f4, f5⟩ := hNf
    obtain ⟨g1, g2, g3, g4, g5⟩ := hif
    obtain ⟨e1, e2, e3, e4, e5⟩ := hdf
    by_cases hj : j = p.id
    · have hbj : (p.id == j) = true := by rw [hj]; exact beq_self_eq_true p.id
      have hself : postReposts (increment_post_reposts dIns p.id) j =
          postReposts dIns j + 1 := by
        rw [hj]; exact postReposts_increment_self dIns p.id hex
      simp [hRL, hRRe, hRQ, hRF, hbj] at e1 e2 e3 e4 e5
      refine ⟨?_, ?_, ?_, ?_, ?_⟩ <;> omega
    · have hbj : (p.id == j) = false := by
        apply Bool.eq_false_iff.mpr
        intro hb
        exact hj (eq_of_beq hb).symm
      have hoth := i1 hj
      simp [hRL, hRRe, hRQ, hRF, hbj] at e1 e2 e3 e4 e5
      refine ⟨?_, ?_, ?_, ?_, ?_⟩ <;> omega

theorem handleFollow_create_noop (env : Env) (db : DB) (a : String)
    (r : Option RecordObj) (k : String)
    (h : 1 ≤ countFI db ("at://" ++ a ++ "/app.bsky.graph.follow/" ++ k)) :
    handleFollowEvent env db a "create" r k = db := by
  unfold handleFollowEvent
  cases hsub : r.bind (fun x => x.subject_did) with
  | none => rfl
  | some sdid =>
    cases hemp : sdid.isEmpty with
    | true => simp [hemp]
    | false =>
      cases hfp : findProfile db sdid with
      | none => simp [hemp, hfp]
      | some prof =>
        cases hff : findFI db ("at://" ++ a ++ "/app.bsky.graph.follow/" ++ k) with
        | some x => simp [hemp, hfp, hff]
        | none =>
          have hins : insertFI db
              { post_id := none, target_user_id := some prof.id
                interaction_type := "follow", actor_did := a
                at_uri := "at://" ++ a ++ "/app.bsky.graph.follow/" ++ k
                meta_text := none, meta_createdAt := none } = none :=
            insertFI_eq_none_of_any_true db _ (any_true_of_countFI_pos db _ h)
          simp [hemp, hfp, hff, hins]

theorem handleFollow_create_spec (env : Env) (db : DB) (a : String)
    (r : Option RecordObj) (k : String) :
    handleFollowEvent env db a "create" r k = db
    ∨ ∃ (prof : Profile) (dIns : DB),
        prof ∈ db.profiles
        ∧ insertFI db
            { post_id := none, target_user_id := some prof.id
              interaction_type := "follow", actor_did := a
              at_uri := "at://" ++ a ++ "/app.bsky.graph.follow/" ++ k
              meta_text := none, meta_createdAt := none } = some dIns
        ∧ handleFollowEvent env db a "create" r k =
            createExternalNotification env
              (increment_profile_followers dIns prof.id) prof.id a "follow" none := by
  unfold handleFollowEvent
  cases hsub : r.bind (fun x => x.subject_did) with
  | none => exact Or.inl rfl
  | some sdid =>
    cases hemp : sdid.isEmpty with
    | true => left; simp [hemp]
    | false =>
      cases hfp : findProfile db sdid with
      | none => left; simp [hemp, hfp]
      | some prof =>
        cases hff : findFI db ("at://" ++ a ++ "/app.bsky.graph.follow/" ++ k) with
        | some x => left; simp [hemp, hfp, hff]
        | none =>
          cases hins : insertFI db
              { post_id := none, target_user_id := some prof.id
                interaction_type := "follow", actor_did := a
                at_uri := "at://" ++ a ++ "/app.bsky.graph.follow/" ++ k
                meta_text := none, meta_createdAt := none } with
          | none => left; simp [hemp, hfp, hff, hins]
          | some dIns =>
            right
            refine ⟨prof, dIns, findProfile_mem db sdid prof hfp, hins, ?_⟩
            simp [hemp, hfp, hff, hins]

theorem handleFollow_create_dichotomy (env : Env) (db : DB) (a : String)
    (r : Option RecordObj) (k : String) :
    handleFollowEvent env db a "create" r k = db
    ∨ countFI (handleFollowEvent env db a "create" r k)
        ("at://" ++ a ++ "/app.bsky.graph.follow/" ++ k) =
      countFI db ("at://" ++ a ++ "/app.bsky.graph.follow/" ++ k) + 1 := by
  rcases handleFollow_create_spec env db a r k with h | ⟨prof, dIns, _, hins, hres⟩
  · exact Or.inl h
  · right
    obtain ⟨hd, _⟩ := insertFI_some db _ dIns hins
    rw [hres]
    rw [countFI_congr _ (increment_profile_followers dIns prof.id) _
      (notif_interactions env _ prof.id a "follow" none)]
    rw [countFI_congr (increment_profile_followers dIns prof.id) dIns _ rfl]
    have : countFI dIns ("at://" ++ a ++ "/app.bsky.graph.follow/" ++ k) =
        countFI db ("at://" ++ a ++ "/app.bsky.graph.follow/" ++ k) +
        (if ("at://" ++ a ++ "/app.bsky.graph.follow/" ++ k) ==
            ("at://" ++ a ++ "/app.bsky.graph.follow/" ++ k) then 1 else 0) := by
      unfold countFI filterFI
      rw [hd]
      exact length_filter_append_one _ _ _
    simpa using this

theorem handleFollow_create_idem (env : Env) (db : DB) (a : String)
    (r : Option RecordObj) (k : String) :
    handleFollowEvent env (handleFollowEvent env db a "create" r k) a "create" r k
      = handleFollowEvent env db a "create" r k := by
  rcases handleFollow_create_dichotomy env db a r k with h | h
  · rw [h]; exact h
  · exact handleFollow_create_noop env _ a r k (by omega)

theorem handleFollow_create_countLe (env : Env) (db : DB) (a : String)
    (r : Option RecordObj) (k k0 : String) (h : countFI db k0 ≤ 1) :
    countFI (handleFollowEvent env db a "create" r k) k0 ≤ 1 := by
  rcases handleFollow_create_spec env db a r k with hres | ⟨prof, dIns, _, hins, hres⟩
  · rw [hres]; exact h
  · rw [hres]
    obtain ⟨hd, hany⟩ := insertFI_some db _ dIns hins
    rw [countFI_congr _ (increment_profile_followers dIns prof.id) _
      (notif_interactions env _ prof.id a "follow" none)]
    rw [countFI_congr (increment_profile_followers dIns prof.id) dIns _ rfl]
    exact countFI_le_one_append dIns db _ k0 (by rw [hd]) hany h

theorem handleFollow_create_paired (env : Env) (db : DB) (a : String)
    (r : Option RecordObj) (k : String) :
    CountersPaired db (handleFollowEvent env db a "create" r k) := by
  rcases handleFollow_create_spec env db a r k with hres | ⟨prof, dIns, hmem, hins, hres⟩
  · rw [hres]; exact countersPaired_refl db
  · rw [hres]
    obtain ⟨hd, _⟩ := insertFI_some db _ dIns hins
    have hdposts : dIns.posts = db.posts := by rw [hd]
    have hdprof : dIns.profiles = db.profiles := by rw [hd]
    have hex : dIns.profiles.any (fun q => q.id == prof.id) = true := by
      rw [hdprof]
      exact profileExists_any db prof hmem
    intro j
    have hNc := counters_congr
      (createExternalNotification env (increment_profile_followers dIns prof.id)
        prof.id a "follow" none)
      (increment_profile_followers dIns prof.id)
      (notif_posts env _ prof.id a "follow" none)
      (notif_profiles env _ prof.id a "follow" none) j
    have hic := counters_increment_profile_followers dIns prof.id j
    have hdc := counters_congr dIns db hdposts hdprof j
    have hNf := fis_congr
      (createExternalNotification env (increment_profile_followers dIns prof.id)
        prof.id a "follow" none)
      (increment_profile_followers dIns prof.id)
      (notif_interactions env _ prof.id a "follow" none) j
    have hif := fis_congr (increment_profile_followers dIns prof.id) dIns rfl j
    have hdf := fis_append dIns db _ (by rw [hd]) j
    simp only [some_beq_some] at hdf
    have hFL : (("follow" : String) == "like") = false := by decide
    have hFR : (("follow" : String) == "repost") = false := by decide
    have hFRe : (("follow" : String) == "reply") = false := by decide
    have hFQ : (("follow" : String) == "quote") = false := by decide
    obtain ⟨i1, i2, i3, i4, i5⟩ := hic
    obtain ⟨n1, n2, n3, n4, n5⟩ := hNc
    obtain ⟨d1, d2, d3, d4, d5⟩ := hdc
    obtain ⟨f1, f2, f3, f4, f5⟩ := hNf
    obtain ⟨g1, g2, g3, g4, g5⟩ := hif
    obtain ⟨e1, e2, e3, e4, e5⟩ := hdf
    by_cases hj : j = prof.id
    · have hbj : (prof.id == j) = true := by rw [hj]; exact beq_self_eq_true prof.id
      have hself : profileFollowers (increment_profile_followers dIns prof.id) j =
          profileFollowers dIns j + 1 := by
        rw [hj]; exact profileFollowers_increment_self dIns prof.id hex
      simp [hFL, hFR, hFRe, hFQ, hbj] at e1 e2 e3 e4 e5
      refine ⟨?_, ?_, ?_, ?_, ?_⟩ <;> omega
    · have hbj : (prof.id == j) = false := by
        apply Bool.eq_false_iff.mpr
        intro hb
        exact hj (eq_of_beq hb).symm
      have hoth := i1 hj
      simp [hFL, hFR, hFRe, hFQ, hbj] at e1 e2 e3 e4 e5
      refine ⟨?_, ?_, ?_, ?_, ?_⟩ <;> omega

theorem none_beq_some {α : Type} [BEq α] (b : α) :
    ((none : Option α) == some b) = false := rfl

theorem replyBranch_noop_no_parent (env : Env) (db : DB) (a : String)
    (r : Option RecordObj) (uri : String)
    (hpar : r.bind (fun x => x.reply_parent_uri) = none) :
    replyBranch env db a r uri = db := by
  unfold replyBranch
  rw [hpar]

theorem replyBranch_noop_not_included (env : Env) (db : DB) (a : String)
    (r : Option RecordObj) (uri parentUri : String)
    (hpar : r.bind (fun x => x.reply_parent_uri) = some parentUri)
    (hinc : strIncludes parentUri CANNECT_DOMAIN = false) :
    replyBranch env db a r uri = db := by
  unfold replyBranch
  rw [hpar]
  simp [hinc]

theorem replyBranch_noop_parent_none (env : Env) (db : DB) (a : String)
    (r : Option RecordObj) (uri parentUri : String)
    (hpar : r.bind (fun x => x.reply_parent_uri) = some parentUri)
    (hfp : findPost db parentUri = none) :
    replyBranch env db a r uri = db := by
  unfold replyBranch
  rw [hpar]
  cases hinc : strIncludes parentUri CANNECT_DOMAIN with
  | false => simp [hinc]
  | true => simp [hinc, hfp]

theorem replyBranch_noop (env : Env) (db : DB) (a : String)
    (r : Option RecordObj) (uri : String) (h : 1 ≤ countFI db uri) :
    replyBranch env db a r uri = db := by
  unfold replyBranch
  cases hpar : r.bind (fun x => x.reply_parent_uri) with
  | none => rfl
  | some parentUri =>
    cases hinc : strIncludes parentUri CANNECT_DOMAIN with
    | false => simp [hinc]
    | true =>
      cases hfp : findPost db parentUri with
      | none => simp [hinc, hfp]
      | some pp =>
        cases hff : findFI db uri with
        | some x => simp [hinc, hfp, hff]
        | none =>
          have hins : insertFI db
              { post_id := some pp.id, target_user_id := none
                interaction_type := "reply", actor_did := a
                at_uri := uri
                meta_text := r.bind (fun x => Option.map (fun t => t.take 500) x.text)
                meta_createdAt := r.bind (fun x => x.createdAt) } = none :=
            insertFI_eq_none_of_any_true db _ (any_true_of_countFI_pos db _ h)
          simp [hinc, hfp, hff, hins]

theorem replyBranch_spec (env : Env) (db : DB) (a : String)
    (r : Option RecordObj) (uri : String) :
    replyBranch env db a r uri = db
    ∨ ∃ (pp : Post) (rec : FIRecord) (dIns : DB),
        pp ∈ db.posts
        ∧ rec.interaction_type = "reply"
        ∧ rec.post_id = some pp.id
        ∧ rec.target_user_id = none
        ∧ rec.at_uri = uri
        ∧ insertFI db rec = some dIns
        ∧ replyBranch env db a r uri =
            createExternalNotification env (increment_post_replies dIns pp.id)
              pp.user_id a "reply" (some pp.id) := by
  unfold replyBranch
  cases hpar : r.bind (fun x => x.reply_parent_uri) with
  | none => exact Or.inl rfl
  | some parentUri =>
    cases hinc : strIncludes parentUri CANNECT_DOMAIN with
    | false => left; simp [hinc]
    | true =>
      cases hfp : findPost db parentUri with
      | none => left; simp [hinc, hfp]
      | some pp =>
        cases hff : findFI db uri with
        | some x => left; simp [hinc, hfp, hff]
        | none =>
          cases hins : insertFI db
              { post_id := some pp.id, target_user_id := none
                interaction_type := "reply", actor_did := a
                at_uri := uri
                meta_text := r.bind (fun x => Option.map (fun t => t.take 500) x.text)
                meta_createdAt := r.bind (fun x => x.createdAt) } with
          | none => left; simp [hinc, hfp, hff, hins]
          | some dIns =>
            right
            refine ⟨pp, _, dIns, findPost_mem db parentUri pp hfp, rfl, rfl, rfl,
              rfl, hins, ?_⟩
            simp [hinc, hfp, hff, hins]

theorem replyBranch_cases4 (env : Env) (db : DB) (a : String)
    (r : Option RecordObj) (uri : String) :
    (r.bind (fun x => x.reply_parent_uri) = none ∧ replyBranch env db a r uri = db)
    ∨ (∃ parentUri, r.bind (fun x => x.reply_parent_uri) = some parentUri
        ∧ strIncludes parentUri CANNECT_DOMAIN = false
        ∧ replyBranch env db a r uri = db)
    ∨ (∃ parentUri, r.bind (fun x => x.reply_parent_uri) = some parentUri
        ∧ findPost db parentUri = none
        ∧ replyBranch env db a r uri = db)
    ∨ (1 ≤ countFI db uri ∧ replyBranch env db a r uri = db)
    ∨ countFI (replyBranch env db a r uri) uri = countFI db uri + 1 := by
  cases hpar : r.bind (fun x => x.reply_parent_uri) with
  | none => exact Or.inl ⟨rfl, replyBranch_noop_no_parent env db a r uri hpar⟩
  | some parentUri =>
    cases hinc : strIncludes parentUri CANNECT_DOMAIN with
    | false =>
      exact Or.inr (Or.inl ⟨parentUri, rfl, hinc,
        replyBranch_noop_not_included env db a r uri parentUri hpar hinc⟩)
    | true =>
      cases hfp : findPost db parentUri with
      | none =>
        exact Or.inr (Or.inr (Or.inl ⟨parentUri, rfl, hfp,
          replyBranch_noop_parent_none env db a r uri parentUri hpar hfp⟩))
      | some pp =>
        cases hff : findFI db uri with
        | some x =>
          have hone : countFI db uri = 1 := countFI_one_of_findFI_some db uri x hff
          refine Or.inr (Or.inr (Or.inr (Or.inl ⟨by omega, ?_⟩)))
          unfold replyBranch
          rw [hpar]
          simp [hinc, hfp, hff]
        | none =>
          cases hins : insertFI db
              { post_id := some pp.id, target_user_id := none
                interaction_type := "reply", actor_did := a
                at_uri := uri
                meta_text := r.bind (fun x => Option.map (fun t => t.take 500) x.text)
                meta_createdAt := r.bind (fun x => x.createdAt) } with
          | none =>
            have hany := insertFI_none db _ hins
            have hpos : 1 ≤ countFI db uri := countFI_pos_of_any_true db uri hany
            refine Or.inr (Or.inr (Or.inr (Or.inl ⟨hpos, ?_⟩)))
            unfold replyBranch
            rw [hpar]
            simp [hinc, hfp, hff, hins]
          | some dIns =>
            obtain ⟨hd, _⟩ := insertFI_some db _ dIns hins
            refine Or.inr (Or.inr (Or.inr (Or.inr ?_)))
            have hres : replyBranch env db a r uri =
                createExternalNotification env (increment_post_replies dIns pp.id)
                  pp.user_id a "reply" (some pp.id) := by
              unfold replyBranch
              rw [hpar]
              simp [hinc, hfp, hff, hins]
            rw [hres]
            rw [countFI_congr _ (increment_post_replies dIns pp.id) _
              (notif_interactions env _ pp.user_id a "reply" (some pp.id))]
            rw [countFI_congr (increment_post_replies dIns pp.id) dIns _ rfl]
            have : countFI dIns uri = countFI db uri +
                (if uri == uri then 1 else 0) := by
              unfold countFI filterFI
              rw [hd]
              exact length_filter_append_one _ _ _
            simpa using this

theorem replyBranch_dichotomy (env : Env) (db : DB) (a : String)
    (r : Option RecordObj) (uri : String) :
    replyBranch env db a r uri = db
    ∨ countFI (replyBranch env db a r uri) uri = countFI db uri + 1 := by
  rcases replyBranch_cases4 env db a r uri with ⟨_, h⟩ | ⟨_, _, _, h⟩ |
    ⟨_, _, _, h⟩ | ⟨_, h⟩ | h
  · exact Or.inl h
  · exact Or.inl h
  · exact Or.inl h
  · exact Or.inl h
  · exact Or.inr h

theorem replyBranch_countLe (env : Env) (db : DB) (a : String)
    (r : Option RecordObj) (uri k0 : String) (h : countFI db k0 ≤ 1) :
    countFI (replyBranch env db a r uri) k0 ≤ 1 := by
  rcases replyBranch_spec env db a r uri with hres | ⟨pp, rec, dIns, _, _, _, _, _, hins, hres⟩
  · rw [hres]; exact h
  · rw [hres]
    obtain ⟨hd, hany⟩ := insertFI_some db _ dIns hins
    rw [countFI_congr _ (increment_post_replies dIns pp.id) _
      (notif_interactions env _ pp.user_id a "reply" (some pp.id))]
    rw [countFI_congr (increment_post_replies dIns pp.id) dIns _ rfl]
    exact countFI_le_one_append dIns db _ k0 (by rw [hd]) hany h

theorem replyBranch_paired (env : Env) (db : DB) (a : String)
    (r : Option RecordObj) (uri : String) :
    CountersPaired db (replyBranch env db a r uri) := by
  rcases replyBranch_spec env db a r uri with hres |
    ⟨pp, rec, dIns, hmem, hty, hpid, htgt, hat, hins, hres⟩
  · rw [hres]; exact countersPaired_refl db
  · rw [hres]
    obtain ⟨hd, _⟩ := insertFI_some db _ dIns hins
    have hdposts : dIns.posts = db.posts := by rw [hd]
    have hdprof : dIns.profiles = db.profiles := by rw [hd]
    have hex : postExists dIns pp.id = true := by
      rw [postExists_congr dIns db pp.id hdposts]
      exact postExists_of_mem db pp hmem
    intro j
    have hNc := counters_congr
      (createExternalNotification env (increment_post_replies dIns pp.id)
        pp.user_id a "reply" (some pp.id))
      (increment_post_replies dIns pp.id)
      (notif_posts env _ pp.user_id a "reply" (some pp.id))
      (notif_profiles env _ pp.user_id a "reply" (some pp.id)) j
    have hic := counters_increment_post_replies dIns pp.id j
    have hdc := counters_congr dIns db hdposts hdprof j
    have hNf := fis_congr
      (createExternalNotification env (increment_post_replies dIns pp.id)
        pp.user_id a "reply" (some pp.id))
      (increment_post_replies dIns pp.id)
      (notif_interactions env _ pp.user_id a "reply" (some pp.id)) j
    have hif := fis_congr (increment_post_replies dIns pp.id) dIns rfl j
    have hdf := fis_append dIns db rec (by rw [hd]) j
    rw [hty, hpid, htgt] at hdf
    simp only [some_beq_some, none_beq_some] at hdf
    have hL : (("reply" : String) == "like") = false := by decide
    have hR : (("reply" : String) == "repost") = false := by decide
    have hQ : (("reply" : String) == "quote") = false := by decide
    have hF : (("reply" : String) == "follow") = false := by decide
    obtain ⟨i1, i2, i3, i4, i5⟩ := hic
    obtain ⟨n1, n2, n3, n4, n5⟩ := hNc
    obtain ⟨d1, d2, d3, d4, d5⟩ := hdc
    obtain ⟨f1, f2, f3, f4, f5⟩ := hNf
    obtain ⟨g1, g2, g3, g4, g5⟩ := hif
    obtain ⟨e1, e2, e3, e4, e5⟩ := hdf
    by_cases hj : j = pp.id
    · have hbj : (pp.id == j) = true := by rw [hj]; exact beq_self_eq_true pp.id
      have hself : postReplies (increment_post_replies dIns pp.id) j =
          postReplies dIns j + 1 := by
        rw [hj]; exact postReplies_increment_self dIns pp.id hex
      simp [hL, hR, hQ, hF, hbj] at e1 e2 e3 e4 e5
      refine ⟨?_, ?_, ?_, ?_, ?_⟩ <;> omega
    · have hbj : (pp.id == j) = false := by
        apply Bool.eq_false_iff.mpr
        intro hb
        exact hj (eq_of_beq hb).symm
      have hoth := i1 hj
      simp [hL, hR, hQ, hF, hbj] at e1 e2 e3 e4 e5
      refine ⟨?_, ?_, ?_, ?_, ?_⟩ <;> omega

theorem quoteBranch_noop (env : Env) (db : DB) (a : String)
    (r : Option RecordObj) (uri : String)
    (h : 1 ≤ countFI db (uri ++ "#quote")) :
    quoteBranch env db a r uri = db := by
  unfold quoteBranch
  cases hq : r.bind (fun x => x.embed_record_uri) with
  | none => rfl
  | some quotedUri =>
    cases hinc : strIncludes quotedUri CANNECT_DOMAIN with
    | false => simp [hinc]
    | true =>
      cases hfp : findPost db quotedUri with
      | none => simp [hinc, hfp]
      | some qp =>
        cases hff : findFI db (uri ++ "#quote") with
        | some x => simp [hinc, hfp, hff]
        | none =>
          have hins : insertFI db
              { post_id := some qp.id, target_user_id := none
                interaction_type := "quote", actor_did := a
                at_uri := uri ++ "#quote"
                meta_text := r.bind (fun x => Option.map (fun t => t.take 500) x.text)
                meta_createdAt := r.bind (fun x => x.createdAt) } = none :=
            insertFI_eq_none_of_any_true db _ (any_true_of_countFI_pos db _ h)
          simp [hinc, hfp, hff, hins]

theorem quoteBranch_spec (env : Env) (db : DB) (a : String)
    (r : Option RecordObj) (uri : String) :
    quoteBranch env db a r uri = db
    ∨ ∃ (qp : Post) (rec : FIRecord) (dIns : DB),
        qp ∈ db.posts
        ∧ rec.interaction_type = "quote"
        ∧ rec.post_id = some qp.id
        ∧ rec.target_user_id = none
        ∧ rec.at_uri = uri ++ "#quote"
        ∧ insertFI db rec = some dIns
        ∧ quoteBranch env db a r uri =
            createExternalNotification env (increment_post_quotes dIns qp.id)
              qp.user_id a "quote" (some qp.id) := by
  unfold quoteBranch
  cases hq : r.bind (fun x => x.embed_record_uri) with
  | none => exact Or.inl rfl
  | some quotedUri =>
    cases hinc : strIncludes quotedUri CANNECT_DOMAIN with
    | false => left; simp [hinc]
    | true =>
      cases hfp : findPost db quotedUri with
      | none => left; simp [hinc, hfp]
      | some qp =>
        cases hff : findFI db (uri ++ "#quote") with
        | some x => left; simp [hinc, hfp, hff]
        | none =>
          cases hins : insertFI db
              { post_id := some qp.id, target_user_id := none
                interaction_type := "quote", actor_did := a
                at_uri := uri ++ "#quote"
                meta_text := r.bind (fun x => Option.map (fun t => t.take 500) x.text)
                meta_createdAt := r.bind (fun x => x.createdAt) } with
          | none => left; simp [hinc, hfp, hff, hins]
          | some dIns =>
            right
            refine ⟨qp, _, dIns, findPost_mem db quotedUri qp hfp, rfl, rfl, rfl,
              rfl, hins, ?_⟩
            simp [hinc, hfp, hff, hins]

theorem quoteBranch_dichotomy (env : Env) (db : DB) (a : String)
    (r : Option RecordObj) (uri : String) :
    quoteBranch env db a r uri = db
    ∨ countFI (quoteBranch env db a r uri) (uri ++ "#quote") =
        countFI db (uri ++ "#quote") + 1 := by
  rcases quoteBranch_spec env db a r uri with h |
    ⟨qp, rec, dIns, _, _, _, _, hat, hins, hres⟩
  · exact Or.inl h
  · right
    obtain ⟨hd, _⟩ := insertFI_some db _ dIns hins
    rw [hres]
    rw [countFI_congr _ (increment_post_quotes dIns qp.id) _
      (notif_interactions env _ qp.user_id a "quote" (some qp.id))]
    rw [countFI_congr (increment_post_quotes dIns qp.id) dIns _ rfl]
    have hstep : countFI dIns (uri ++ "#quote") = countFI db (uri ++ "#quote") +
        (if rec.at_uri == uri ++ "#quote" then 1 else 0) := by
      unfold countFI filterFI
      rw [hd]
      exact length_filter_append_one _ _ _
    rw [hat] at hstep
    simpa using hstep

theorem quoteBranch_countLe (env : Env) (db : DB) (a : String)
    (r : Option RecordObj) (uri k0 : String) (h : countFI db k0 ≤ 1) :
    countFI (quoteBranch env db a r uri) k0 ≤ 1 := by
  rcases quoteBranch_spec env db a r uri with hres |
    ⟨qp, rec, dIns, _, _, _, _, _, hins, hres⟩
  · rw [hres]; exact h
  · rw [hres]
    obtain ⟨hd, hany⟩ := insertFI_some db _ dIns hins
    rw [countFI_congr _ (increment_post_quotes dIns qp.id) _
      (notif_interactions env _ qp.user_id a "quote" (some qp.id))]
    rw [countFI_congr (increment_post_quotes dIns qp.id) dIns _ rfl]
    exact countFI_le_one_append dIns db _ k0 (by rw [hd]) hany h

theorem quoteBranch_countFI_mono (env : Env) (db : DB) (a : String)
    (r : Option RecordObj) (uri u : String) :
    countFI db u ≤ countFI (quoteBranch env db a r uri) u := by
  rcases quoteBranch_spec env db a r uri with hres |
    ⟨qp, rec, dIns, _, _, _, _, _, hins, hres⟩
  · rw [hres]
  · rw [hres]
    obtain ⟨hd, _⟩ := insertFI_some db _ dIns hins
    rw [countFI_congr _ (increment_post_quotes dIns qp.id) _
      (notif_interactions env _ qp.user_id a "quote" (some qp.id))]
    rw [countFI_congr (increment_post_quotes dIns qp.id) dIns _ rfl]
    have hstep : countFI dIns u = countFI db u +
        (if rec.at_uri == u then 1 else 0) := by
      unfold countFI filterFI
      rw [hd]
      exact length_filter_append_one _ _ _
    omega

theorem quoteBranch_findPost_none (env : Env) (db : DB) (a : String)
    (r : Option RecordObj) (uri u : String) (h : findPost db u = none) :
    findPost (quoteBranch env db a r uri) u = none := by
  rcases quoteBranch_spec env db a r uri with hres |
    ⟨qp, rec, dIns, _, _, _, _, _, hins, hres⟩
  · rw [hres]; exact h
  · rw [hres]
    obtain ⟨hd, _⟩ := insertFI_some db _ dIns hins
    have hposts : (createExternalNotification env
        (increment_post_quotes dIns qp.id) qp.user_id a "quote"
        (some qp.id)).posts = db.posts.map
        (fun p => if p.id == qp.id then
          { p with quotes_count := p.quotes_count + 1 } else p) := by
      rw [notif_posts env _ qp.user_id a "quote" (some qp.id)]
      show (increment_post_quotes dIns qp.id).posts = _
      unfold increment_post_quotes
      rw [show dIns.posts = db.posts by rw [hd]]
    rw [findPost_of_posts_map _ db _ u hposts ?hat, h]
    case hat =>
      intro p
      by_cases hid : p.id = qp.id <;> simp [hid]
    rfl

theorem quoteBranch_paired (env : Env) (db : DB) (a : String)
    (r : Option RecordObj) (uri : String) :
    CountersPaired db (quoteBranch env db a r uri) := by
  rcases quoteBranch_spec env db a r uri with hres |
    ⟨qp, rec, dIns, hmem, hty, hpid, htgt, hat, hins, hres⟩
  · rw [hres]; exact countersPaired_refl db
  · rw [hres]
    obtain ⟨hd, _⟩ := insertFI_some db _ dIns hins
    have hdposts : dIns.posts = db.posts := by rw [hd]
    have hdprof : dIns.profiles = db.profiles := by rw [hd]
    have hex : postExists dIns qp.id = true := by
      rw [postExists_congr dIns db qp.id hdposts]
      exact postExists_of_mem db qp hmem
    intro j
    have hNc := counters_congr
      (createExternalNotification env (increment_post_quotes dIns qp.id)
        qp.user_id a "quote" (some qp.id))
      (increment_post_quotes dIns qp.id)
      (notif_posts env _ qp.user_id a "quote" (some qp.id))
      (notif_profiles env _ qp.user_id a "quote" (some qp.id)) j
    have hic := counters_increment_post_quotes dIns qp.id j
    have hdc := counters_congr dIns db hdposts hdprof j
    have hNf := fis_congr
      (createExternalNotification env (increment_post_quotes dIns qp.id)
        qp.user_id a "quote" (some qp.id))
      (increment_post_quotes dIns qp.id)
      (notif_interactions env _ qp.user_id a "quote" (some qp.id)) j
    have hif := fis_congr (increment_post_quotes dIns qp.id) dIns rfl j
    have hdf := fis_append dIns db rec (by rw [hd]) j
    rw [hty, hpid, htgt] at hdf
    simp only [some_beq_some, none_beq_some] at hdf
    have hL : (("quote" : String) == "like") = false := by decide
    have hR : (("quote" : String) == "repost") = false := by decide
    have hRe : (("quote" : String) == "reply") = false := by decide
    have hF : (("quote" : String) == "follow") = false := by decide
    obtain ⟨i1, i2, i3, i4, i5⟩ := hic
    obtain ⟨n1, n2, n3, n4, n5⟩ := hNc
    obtain ⟨d1, d2, d3, d4, d5⟩ := hdc
    obtain ⟨f1, f2, f3, f4, f5⟩ := hNf
    obtain ⟨g1, g2, g3, g4, g5⟩ := hif
    obtain ⟨e1, e2, e3, e4, e5⟩ := hdf
    by_cases hj : j = qp.id
    · have hbj : (qp.id == j) = true := by rw [hj]; exact beq_self_eq_true qp.id
      have hself : postQuotes (increment_post_quotes dIns qp.id) j =
          postQuotes dIns j + 1 := by
        rw [hj]; exact postQuotes_increment_self dIns qp.id hex
      simp [hL, hR, hRe, hF, hbj] at e1 e2 e3 e4 e5
      refine ⟨?_, ?_, ?_, ?_, ?_⟩ <;> omega
    · have hbj : (qp.id == j) = false := by
        apply Bool.eq_false_iff.mpr
        intro hb
        exact hj (eq_of_beq hb).symm
      have hoth := i1 hj
      simp [hL, hR, hRe, hF, hbj] at e1 e2 e3 e4 e5
      refine ⟨?_, ?_, ?_, ?_, ?_⟩ <;> omega

theorem replyBranch_second (env : Env) (db : DB) (a : String)
    (r : Option RecordObj) (uri : String) :
    replyBranch env (quoteBranch env (replyBranch env db a r uri) a r uri) a r uri
      = quoteBranch env (replyBranch env db a r uri) a r uri := by
  rcases replyBranch_cases4 env db a r uri with ⟨hpar, hre⟩ |
    ⟨pu, hpar, hinc, hre⟩ | ⟨pu, hpar, hfp, hre⟩ | ⟨hcnt, hre⟩ | hcnt
  · exact replyBranch_noop_no_parent env _ a r uri hpar
  · exact replyBranch_noop_not_included env _ a r uri pu hpar hinc
  · rw [hre]
    exact replyBranch_noop_parent_none env _ a r uri pu hpar
      (quoteBranch_findPost_none env db a r uri pu hfp)
  · rw [hre]
    exact replyBranch_noop env _ a r uri
      (Nat.le_trans hcnt (quoteBranch_countFI_mono env db a r uri uri))
  · apply replyBranch_noop env _ a r uri
    have hmono := quoteBranch_countFI_mono env (replyBranch env db a r uri)
      a r uri uri
    omega

theorem handlePost_unfold (env : Env) (db : DB) (a : String)
    (r : Option RecordObj) (k : String) :
    handlePostEvent env db a "create" r k =
      quoteBranch env
        (replyBranch env db a r ("at://" ++ a ++ "/app.bsky.feed.post/" ++ k))
        a r ("at://" ++ a ++ "/app.bsky.feed.post/" ++ k) := by
  unfold handlePostEvent
  simp

theorem handlePost_create_idem (env : Env) (db : DB) (a : String)
    (r : Option RecordObj) (k : String) :
    handlePostEvent env (handlePostEvent env db a "create" r k) a "create" r k
      = handlePostEvent env db a "create" r k := by
  rw [handlePost_unfold, handlePost_unfold]
  rw [replyBranch_second env db a r _]
  rcases quoteBranch_dichotomy env
      (replyBranch env db a r ("at://" ++ a ++ "/app.bsky.feed.post/" ++ k)) a r
      ("at://" ++ a ++ "/app.bsky.feed.post/" ++ k) with hq | hq
  · rw [hq]; exact hq
  · exact quoteBranch_noop env _ a r _ (by omega)

theorem handlePost_create_countLe (env : Env) (db : DB) (a : String)
    (r : Option RecordObj) (k k0 : String) (h : countFI db k0 ≤ 1) :
    countFI (handlePostEvent env db a "create" r k) k0 ≤ 1 := by
  rw [handlePost_unfold]
  exact quoteBranch_countLe env _ a r _ k0
    (replyBranch_countLe env db a r _ k0 h)

theorem handlePost_create_paired (env : Env) (db : DB) (a : String)
    (r : Option RecordObj) (k : String) :
    CountersPaired db (handlePostEvent env db a "create" r k) := by
  rw [handlePost_unfold]
  exact countersPaired_trans db _ _
    (replyBranch_paired env db a r _)
    (quoteBranch_paired env _ a r _)

theorem processEvent_eq_none (env : Env) (db : DB) (e : Event)
    (hc : e.commit = none) : processEvent env db e = db := by
  unfold processEvent
  rw [hc]

theorem processEvent_eq_some (env : Env) (db : DB) (e : Event) (c : CommitObj)
    (hc : e.commit = some c) :
    processEvent env db e =
      (if c.collection == "app.bsky.feed.like" then
        handleLikeEvent env db e.did c.operation c.record c.rkey
      else if c.collection == "app.bsky.feed.repost" then
        handleRepostEvent env db e.did c.operation c.record c.rkey
      else if c.collection == "app.bsky.feed.post" then
        handlePostEvent env db e.did c.operation c.record c.rkey
      else if c.collection == "app.bsky.graph.follow" then
        handleFollowEvent env db e.did c.operation c.record c.rkey
      else db) := by
  unfold processEvent
  rw [hc]

theorem processEvent_create_idem (env : Env) (db : DB) (e : Event)
    (hop : eventOperation e = some "create") :
    processEvent env (processEvent env db e) e = processEvent env db e := by
  cases hc : e.commit with
  | none => rw [processEvent_eq_none env _ e hc, processEvent_eq_none env db e hc]
  | some c =>
    have hcop : c.operation = "create" := by
      simpa [eventOperation, hc] using hop
    rw [processEvent_eq_some env (processEvent env db e) e c hc,
      processEvent_eq_some env db e c hc, hcop]
    cases h1 : c.collection == "app.bsky.feed.like" with
    | true =>
      simp only [h1, if_true]
      exact handleLike_create_idem env db e.did c.record c.rkey
    | false =>
      simp only [h1, Bool.false_eq_true, if_false]
      cases h2 : c.collection == "app.bsky.feed.repost" with
      | true =>
        simp only [h2, if_true]
        exact handleRepost_create_idem env db e.did c.record c.rkey
      | false =>
        simp only [h2, Bool.false_eq_true, if_false]
        cases h3 : c.collection == "app.bsky.feed.post" with
        | true =>
          simp only [h3, if_true]
          exact handlePost_create_idem env db e.did c.record c.rkey
        | false =>
          simp only [h3, Bool.false_eq_true, if_false]
          cases h4 : c.collection == "app.bsky.graph.follow" with
          | true =>
            simp only [h4, if_true]
            exact handleFollow_create_idem env db e.did c.record c.rkey
          | false =>
            simp only [h4, Bool.false_eq_true, if_false]

theorem processEvent_create_countLe (env : Env) (db : DB) (e : Event)
    (k0 : String) (hop : eventOperation e = some "create")
    (h : countFI db k0 ≤ 1) :
    countFI (processEvent env db e) k0 ≤ 1 := by
  cases hc : e.commit with
  | none => rw [processEvent_eq_none env db e hc]; exact h
  | some c =>
    have hcop : c.operation = "create" := by
      simpa [eventOperation, hc] using hop
    rw [processEvent_eq_some env db e c hc, hcop]
    cases h1 : c.collection == "app.bsky.feed.like" with
    | true =>
      simp only [h1, if_true]
      exact handleLike_create_countLe env db e.did c.record c.rkey k0 h
    | false =>
      simp only [h1, Bool.false_eq_true, if_false]
      cases h2 : c.collection == "app.bsky.feed.repost" with
      | true =>
        simp only [h2, if_true]
        exact handleRepost_create_countLe env db e.did c.record c.rkey k0 h
      | false =>
        simp only [h2, Bool.false_eq_true, if_false]
        cases h3 : c.collection == "app.bsky.feed.post" with
        | true =>
          simp only [h3, if_true]
          exact handlePost_create_countLe env db e.did c.record c.rkey k0 h
        | false =>
          simp only [h3, Bool.false_eq_true, if_false]
          cases h4 : c.collection == "app.bsky.graph.follow" with
          | true =>
            simp only [h4, if_true]
            exact handleFollow_create_countLe env db e.did c.record c.rkey k0 h
          | false =>
            simp only [h4, Bool.false_eq_true, if_false]
            exact h

theorem processEvent_create_paired (env : Env) (db : DB) (e : Event)
    (hop : eventOperation e = some "create") :
    CountersPaired db (processEvent env db e) := by
  cases hc : e.commit with
  | none => rw [processEvent_eq_none env db e hc]; exact countersPaired_refl db
  | some c =>
    have hcop : c.operation = "create" := by
      simpa [eventOperation, hc] using hop
    rw [processEvent_eq_some env db e c hc, hcop]
    cases h1 : c.collection == "app.bsky.feed.like" with
    | true =>
      simp only [h1, if_true]
      exact handleLike_create_paired env db e.did c.record c.rkey
    | false =>
      simp only [h1, Bool.false_eq_true, if_false]
      cases h2 : c.collection == "app.bsky.feed.repost" with
      | true =>
        simp only [h2, if_true]
        exact handleRepost_create_paired env db e.did c.record c.rkey
      | false =>
        simp only [h2, Bool.false_eq_true, if_false]
        cases h3 : c.collection == "app.bsky.feed.post" with
        | true =>
          simp only [h3, if_true]
          exact handlePost_create_paired env db e.did c.record c.rkey
        | false =>
          simp only [h3, Bool.false_eq_true, if_false]
          cases h4 : c.collection == "app.bsky.graph.follow" with
          | true =>
            simp only [h4, if_true]
            exact handleFollow_create_paired env db e.did c.record c.rkey
          | false =>
            simp only [h4, Bool.false_eq_true, if_false]
            exact countersPaired_refl db

/-- C1: for every inbound create event, processing is idempotent under
redelivery — applying the event a second time is a no-op on the whole local
state — and, starting from a state with no Federated Interaction under a
given idempotency key, at most one interaction row under that key exists
afterwards, with every aggregate-counter movement paired one-to-one with the
interaction rows created.  Together: applying the same create event twice
yields exactly one interaction record under its key and exactly one net
counter increment. -/
theorem c1_create_idempotent (env : Env) (db : DB) (e : Event) (k0 : String)
    (hop : eventOperation e = some "create") (hk : countFI db k0 = 0) :
    processEvent env (processEvent env db e) e = processEvent env db e
    ∧ countFI (processEvent env db e) k0 ≤ 1
    ∧ CountersPaired db (processEvent env db e) :=
  ⟨processEvent_create_idem env db e hop,
   processEvent_create_countLe env db e k0 hop (by omega),
   processEvent_create_paired env db e hop⟩

theorem c1_witness :
    (eventOperation c1event = some "create" ∧ countFI c3db c1key = 0)
    ∧ (processEvent envNoFetch (processEvent envNoFetch c3db c1event) c1event =
        processEvent envNoFetch c3db c1event
       ∧ countFI (processEvent envNoFetch c3db c1event) c1key ≤ 1
       ∧ CountersPaired c3db (processEvent envNoFetch c3db c1event))
    ∧ countFI (processEvent envNoFetch c3db c1event) c1key = 1
    ∧ postLikes (processEvent envNoFetch c3db c1event) "p1" = 6 :=
  ⟨⟨by decide, by decide⟩,
   c1_create_idempotent envNoFetch c3db c1event c1key (by decide) (by decide),
   by decide, by decide⟩

end Cannect

